import Mathlib

/-! # Stateless MediaTek video decoder front-end

A shallow embedding of `drivers/media/platform/mtk-vcodec/mtk_vcodec_dec_stateless.c`:
the control requirement table, the media-request validator, the decode worker with its
input-completion helper, and the buffer-queue event handler.

Pointers are natural numbers (addresses), `0` being `NULL` where a pointer is tested.
The kernel services the file calls (videobuf2, v4l2-mem2mem, the control framework, the
decode backend) are not part of the file; each one is represented by its documented
effect on an explicit state, and every call that matters is recorded in that state.
-/

namespace MtkVdec

/-! ## Constants that come from kernel headers -/

/-- Value of `ENOENT` in `errno-base.h`. -/
def ENOENT : Int := 2

/-- Value of `EIO` in `errno-base.h`. -/
def EIO : Int := 5

/-- Value of `EINVAL` in `errno-base.h`. -/
def EINVAL : Int := 22

/-- Pixel formats the file names (`V4L2_PIX_FMT_*`); any other fourcc is `other`.
The numeric fourcc codes live in `videodev2.h`; only their being pairwise distinct
matters here. -/
inductive v4l2_pix_fmt where
  | H264_SLICE
  | VP8_FRAME
  | VP9_FRAME
  | MM21
  | MT21C
  | other (fourcc : Nat)
  deriving DecidableEq, Repr

/-- Control identifiers the file names (`V4L2_CID_*`); any other identifier is `other`.
The numeric identifiers live in `v4l2-controls.h`; only their being pairwise distinct
matters here. -/
inductive v4l2_cid where
  | STATELESS_H264_SPS
  | STATELESS_H264_PPS
  | STATELESS_H264_SCALING_MATRIX
  | STATELESS_H264_DECODE_PARAMS
  | MPEG_VIDEO_H264_PROFILE
  | STATELESS_H264_DECODE_MODE
  | STATELESS_VP8_FRAME
  | MPEG_VIDEO_VP8_PROFILE
  | STATELESS_VP9_FRAME
  | MPEG_VIDEO_VP9_PROFILE
  | other (id : Nat)
  deriving DecidableEq, Repr

/-- Buffer-queue types (`enum v4l2_buf_type`) a memory-to-memory queue can have. -/
inductive v4l2_buf_type where
  | VIDEO_CAPTURE
  | VIDEO_OUTPUT
  | VIDEO_CAPTURE_MPLANE
  | VIDEO_OUTPUT_MPLANE
  deriving DecidableEq, Repr

/-- Macro `V4L2_TYPE_IS_OUTPUT` of `videodev2.h`, restricted to the queue types above. -/
def V4L2_TYPE_IS_OUTPUT : v4l2_buf_type → Bool
  | .VIDEO_OUTPUT => true
  | .VIDEO_OUTPUT_MPLANE => true
  | _ => false

/-- Lifecycle states of a context (`enum mtk_instance_state` in `mtk_vcodec_drv.h`). -/
inductive mtk_instance_state where
  | MTK_STATE_FREE
  | MTK_STATE_INIT
  | MTK_STATE_HEADER
  | MTK_STATE_FLUSH
  | MTK_STATE_ABORT
  deriving DecidableEq, Repr

/-- Completion status handed to `v4l2_m2m_buf_done` (`enum vb2_buffer_state`). -/
inductive vb2_buffer_state where
  | VB2_BUF_STATE_DONE
  | VB2_BUF_STATE_ERROR
  deriving DecidableEq, Repr

/-! ## Control requirement table (source lines 22-111) -/

/-- The `struct mtk_stateless_control`: of `cfg` only the identifier is kept, the
menu bounds play no part in validation. A field the initialiser leaves out is `false`. -/
structure mtk_stateless_control where
  cfg_id : v4l2_cid
  codec_type : v4l2_pix_fmt
  needed_in_request : Bool
  deriving DecidableEq, Repr

/-- The table `mtk_stateless_controls[]`, entry by entry in source order. -/
def mtk_stateless_controls : List mtk_stateless_control :=
  [ { cfg_id := .STATELESS_H264_SPS, codec_type := .H264_SLICE, needed_in_request := true },
    { cfg_id := .STATELESS_H264_PPS, codec_type := .H264_SLICE, needed_in_request := true },
    { cfg_id := .STATELESS_H264_SCALING_MATRIX, codec_type := .H264_SLICE,
      needed_in_request := true },
    { cfg_id := .STATELESS_H264_DECODE_PARAMS, codec_type := .H264_SLICE,
      needed_in_request := true },
    { cfg_id := .MPEG_VIDEO_H264_PROFILE, codec_type := .H264_SLICE,
      needed_in_request := false },
    { cfg_id := .STATELESS_H264_DECODE_MODE, codec_type := .H264_SLICE,
      needed_in_request := true },
    { cfg_id := .STATELESS_VP8_FRAME, codec_type := .VP8_FRAME, needed_in_request := true },
    { cfg_id := .MPEG_VIDEO_VP8_PROFILE, codec_type := .VP8_FRAME,
      needed_in_request := false },
    { cfg_id := .STATELESS_VP9_FRAME, codec_type := .VP9_FRAME, needed_in_request := true },
    { cfg_id := .MPEG_VIDEO_VP9_PROFILE, codec_type := .VP9_FRAME,
      needed_in_request := false } ]

/-! ## Contexts and media requests -/

/-- The destination half of `ctx->q_data[]`: the configured capture plane sizes and the
plane count of the configured capture format. -/
structure mtk_q_data where
  sizeimage0 : Nat
  sizeimage1 : Nat
  num_planes : Nat
  deriving DecidableEq, Repr

/-- The memory-to-memory context `ctx->m2m_ctx`: the ready queues of source (bitstream)
and destination (frame) buffers, each a list of buffer addresses, head first. -/
structure v4l2_m2m_ctx where
  src_rdy : List Nat
  dst_rdy : List Nat
  deriving DecidableEq, Repr

/-- The fields of `struct mtk_vcodec_ctx` the file reads or writes. `ctrl_hdl` is the
address of the context's own control handler, the parent of every request snapshot. -/
structure mtk_vcodec_ctx where
  id : Nat
  state : mtk_instance_state
  current_codec : v4l2_pix_fmt
  ctrl_hdl : Nat
  m2m_ctx : v4l2_m2m_ctx
  q_data_dst : mtk_q_data
  decoded_frame_cnt : Nat
  deriving DecidableEq, Repr

/-- One object bound to a media request. A `buffer` is a videobuf2 buffer whose queue has
`drv_priv` pointing at the owning context (or at nothing). A `handler` is a control
snapshot: `priv` is the parent handler it was made for, `ctrls` are the controls it holds
and `kref` counts the references held on the object. -/
inductive media_request_object where
  | buffer (drv_priv : Option mtk_vcodec_ctx)
  | handler (priv : Nat) (ctrls : List v4l2_cid) (kref : Nat)
  | other
  deriving DecidableEq, Repr

/-- The `struct media_request`: its list of bound objects. -/
structure media_request where
  objects : List media_request_object
  deriving DecidableEq, Repr

/-- Collaborator calls made during validation, in the order they are made.
`get_drv_priv` is the `vb2_get_drv_priv` call of the context lookup: it is made once,
on the first buffer object, and a request that passed the count check has one. -/
inductive req_call where
  | get_drv_priv
  | hdl_find (parent : Nat)
  | hdl_ctrl_find (id : v4l2_cid)
  | hdl_put
  | request_validate
  deriving DecidableEq, Repr

/-- State the validator runs in: the request, the state `vb2` of the buffer-queue
collaborator (of any type `Q`), and the record of collaborator calls made so far. -/
structure req_state (Q : Type) where
  mreq : media_request
  vb2 : Q
  calls : List req_call

/-- Modelled from the spec: `vb2_request_object_is_buffer` (videobuf2, not in this file)
tells whether a request object is a buffer. -/
def vb2_request_object_is_buffer : media_request_object → Bool
  | .buffer _ => true
  | _ => false

/-- Modelled from the spec: `vb2_request_buffer_cnt` (videobuf2, not in this file) counts
the buffers attached to a request. -/
def vb2_request_buffer_cnt (mreq : media_request) : Nat :=
  (mreq.objects.filter vb2_request_object_is_buffer).length

/-- The loop of source lines 254-262: the first buffer object of the request decides the
context, which is `vb2_get_drv_priv` of its queue; later objects are not looked at. -/
def request_ctx_lookup : List media_request_object → Option mtk_vcodec_ctx
  | [] => none
  | .buffer drv_priv :: _ => drv_priv
  | _ :: rest => request_ctx_lookup rest

/-- Modelled from the spec: `v4l2_ctrl_request_hdl_find` (control framework, not in this
file) finds the first handler object of the request made for `parent` and takes a
reference on it. The result is the position of the object and the updated object list. -/
def v4l2_ctrl_request_hdl_find :
    List media_request_object → Nat → Option (Nat × List media_request_object)
  | [], _ => none
  | .handler priv ctrls kref :: rest, parent =>
    if priv = parent then some (0, .handler priv ctrls (kref + 1) :: rest)
    else
      match v4l2_ctrl_request_hdl_find rest parent with
      | none => none
      | some (i, rest') => some (i + 1, .handler priv ctrls kref :: rest')
  | o :: rest, parent =>
    match v4l2_ctrl_request_hdl_find rest parent with
    | none => none
    | some (i, rest') => some (i + 1, o :: rest')

/-- Modelled from the spec: `v4l2_ctrl_request_hdl_put` (control framework, not in this
file) releases the reference taken by `v4l2_ctrl_request_hdl_find` on the handler object
at position `hdl`. -/
def v4l2_ctrl_request_hdl_put : List media_request_object → Nat → List media_request_object
  | [], _ => []
  | .handler priv ctrls kref :: rest, 0 => .handler priv ctrls (kref - 1) :: rest
  | o :: rest, 0 => o :: rest
  | o :: rest, hdl + 1 => o :: v4l2_ctrl_request_hdl_put rest hdl

/-- Controls held by the handler object at position `hdl`. -/
def hdl_ctrls : List media_request_object → Nat → List v4l2_cid
  | [], _ => []
  | .handler _ ctrls _ :: _, 0 => ctrls
  | _ :: _, 0 => []
  | _ :: rest, hdl + 1 => hdl_ctrls rest hdl

/-- Modelled from the spec: `v4l2_ctrl_request_hdl_ctrl_find` (control framework, not in
this file) tells whether the snapshot at position `hdl` holds the control `id`. -/
def v4l2_ctrl_request_hdl_ctrl_find (objs : List media_request_object) (hdl : Nat)
    (id : v4l2_cid) : Bool :=
  decide (id ∈ hdl_ctrls objs hdl)

/-- References currently held on the handler objects of a request, object by object
(`none` for an object that is not a handler). -/
def krefs (mreq : media_request) : List (Option Nat) :=
  mreq.objects.map fun o =>
    match o with
    | .handler _ _ kref => some kref
    | _ => none

/-- The loop of source lines 277-289 over the remaining table entries `tbl`: entries of
another codec or not needed in a request are skipped; for every other entry the control
is looked up in the snapshot. The result is `false` at the first control that is absent
(the early `return -ENOENT`), `true` when the loop runs to its end, together with the
record of lookups made. -/
def required_ctrls_loop (objs : List media_request_object) (hdl : Nat)
    (current_codec : v4l2_pix_fmt) :
    List mtk_stateless_control → List req_call → Bool × List req_call
  | [], calls => (true, calls)
  | c :: tbl, calls =>
    if c.codec_type ≠ current_codec then
      required_ctrls_loop objs hdl current_codec tbl calls
    else if !c.needed_in_request then
      required_ctrls_loop objs hdl current_codec tbl calls
    else
      let calls := calls ++ [req_call.hdl_ctrl_find c.cfg_id]
      if !v4l2_ctrl_request_hdl_ctrl_find objs hdl c.cfg_id then (false, calls)
      else required_ctrls_loop objs hdl current_codec tbl calls

/-- The function `fops_media_request_validate` (source lines 232-294). The buffer-queue
admission check `vb2_request_validate` is a parameter: any function from the request and
the collaborator state to a result and a new collaborator state. -/
def fops_media_request_validate {Q : Type}
    (vb2_request_validate : media_request → Q → Int × Q)
    (s : req_state Q) : Int × req_state Q :=
  match vb2_request_buffer_cnt s.mreq with
  | 1 =>
    let s := { s with calls := s.calls ++ [req_call.get_drv_priv] }
    match request_ctx_lookup s.mreq.objects with
    | none => (-ENOENT, s)
    | some ctx =>
      let parent_hdl := ctx.ctrl_hdl
      let s := { s with calls := s.calls ++ [req_call.hdl_find parent_hdl] }
      match v4l2_ctrl_request_hdl_find s.mreq.objects parent_hdl with
      | none => (-ENOENT, s)
      | some (hdl, objs) =>
        let s := { s with mreq := { objects := objs } }
        match required_ctrls_loop objs hdl ctx.current_codec mtk_stateless_controls s.calls with
        | (false, calls) => (-ENOENT, { s with calls := calls })
        | (true, calls) =>
          let s := { s with mreq := { objects := v4l2_ctrl_request_hdl_put objs hdl },
                            calls := calls ++ [req_call.hdl_put] }
          let r := vb2_request_validate s.mreq s.vb2
          (r.1, { s with vb2 := r.2, calls := s.calls ++ [req_call.request_validate] })
  | 0 => (-ENOENT, s)
  | _ => (-EINVAL, s)

/-! ## Buffers and the decode worker state -/

/-- The `struct mtk_vcodec_mem`: a memory region handed to the backend. -/
structure mtk_vcodec_mem where
  va : Nat
  dma_addr : Nat
  size : Nat
  deriving DecidableEq, Repr

/-- The `struct vdec_fb`: luma and chroma regions of a frame buffer. -/
structure vdec_fb where
  base_y : mtk_vcodec_mem
  base_c : mtk_vcodec_mem
  deriving DecidableEq, Repr

/-- One plane of a videobuf2 buffer: its kernel mapping (`0` when there is none), its DMA
address, the bytes used by the submitter and the payload set by the driver. -/
structure vb2_plane where
  vaddr : Nat
  dma_addr : Nat
  bytesused : Nat
  payload : Nat
  deriving DecidableEq, Repr

/-- The fields of `struct vb2_buffer` the file reads: `type` is `vb2_queue->type`, `req`
is `req_obj.req` (`none` for `NULL`). -/
structure vb2_buffer where
  index : Nat
  type : v4l2_buf_type
  plane0 : vb2_plane
  plane1 : vb2_plane
  req : Option Nat
  deriving DecidableEq, Repr

/-- The `struct mtk_video_dec_buf`: the videobuf2 buffer with the driver's bookkeeping. -/
structure mtk_video_dec_buf where
  vb : vb2_buffer
  bs_buffer : mtk_vcodec_mem
  frame_buffer : vdec_fb
  error : Bool
  deriving DecidableEq, Repr

/-- State of one decoding session and of the collaborators it talks to.
* `bufs` is memory: the buffer record at each address;
* `done` records the `v4l2_m2m_buf_done` calls, oldest first;
* `job_finish` counts the `v4l2_m2m_job_finish` calls;
* `request_setup` and `request_complete` record the requests given to
  `v4l2_ctrl_request_setup` and `v4l2_ctrl_request_complete`;
* `decode` records the bitstream argument of every `vdec_if_decode` call. -/
structure vdec_state where
  ctx : mtk_vcodec_ctx
  bufs : Nat → mtk_video_dec_buf
  done : List (Nat × vb2_buffer_state)
  job_finish : Nat
  request_setup : List Nat
  request_complete : List (Option Nat)
  decode : List (Option Nat)

/-- Modelled from the spec: `v4l2_m2m_next_src_buf` (v4l2-mem2mem, not in this file)
peeks the head of the pending-input queue. -/
def v4l2_m2m_next_src_buf (m : v4l2_m2m_ctx) : Option Nat := m.src_rdy.head?

/-- Modelled from the spec: `v4l2_m2m_src_buf_remove` (v4l2-mem2mem, not in this file)
removes the head of the pending-input queue. -/
def v4l2_m2m_src_buf_remove (s : vdec_state) : vdec_state :=
  { s with ctx := { s.ctx with m2m_ctx := { s.ctx.m2m_ctx with
      src_rdy := s.ctx.m2m_ctx.src_rdy.tail } } }

/-- Modelled from the spec: `v4l2_m2m_buf_done` (v4l2-mem2mem, not in this file) reports
the buffer at address `vb` complete with the given status. -/
def v4l2_m2m_buf_done (vb : Nat) (st : vb2_buffer_state) (s : vdec_state) : vdec_state :=
  { s with done := s.done ++ [(vb, st)] }

/-- Modelled from the spec: `v4l2_m2m_job_finish` (v4l2-mem2mem, not in this file) tells
the scheduler that the job is finished. -/
def v4l2_m2m_job_finish (s : vdec_state) : vdec_state :=
  { s with job_finish := s.job_finish + 1 }

/-- Modelled from the spec: `v4l2_m2m_buf_queue` (v4l2-mem2mem, not in this file) appends
the buffer to the ready queue chosen by its queue type. -/
def v4l2_m2m_buf_queue (vb : Nat) (s : vdec_state) : vdec_state :=
  if V4L2_TYPE_IS_OUTPUT (s.bufs vb).vb.type then
    { s with ctx := { s.ctx with m2m_ctx := { s.ctx.m2m_ctx with
        src_rdy := s.ctx.m2m_ctx.src_rdy ++ [vb] } } }
  else
    { s with ctx := { s.ctx with m2m_ctx := { s.ctx.m2m_ctx with
        dst_rdy := s.ctx.m2m_ctx.dst_rdy ++ [vb] } } }

/-- Modelled from the spec: `v4l2_ctrl_request_setup` (control framework, not in this
file) applies the control snapshot of a request to the context. -/
def v4l2_ctrl_request_setup (req : Nat) (s : vdec_state) : vdec_state :=
  { s with request_setup := s.request_setup ++ [req] }

/-- Modelled from the spec: `v4l2_ctrl_request_complete` (control framework, not in this
file) completes the controls of a request; the argument may be `NULL`. -/
def v4l2_ctrl_request_complete (req : Option Nat) (s : vdec_state) : vdec_state :=
  { s with request_complete := s.request_complete ++ [req] }

/-- Modelled from the spec: `vdec_if_decode` (decode backend, not in this file) is given
the bitstream buffer at address `bs` (`none` for `NULL`) and no frame buffer. The backend
is a black box: its outcome is supplied from outside, here only the call is recorded. -/
def vdec_if_decode (bs : Option Nat) (s : vdec_state) : vdec_state :=
  { s with decode := s.decode ++ [bs] }

/-- Writes the persistent error flag of the buffer record at address `p`
(`out_buf->error = true`, `dec_buf_src->error = true`). -/
def set_error (p : Nat) (s : vdec_state) : vdec_state :=
  { s with bufs := Function.update s.bufs p ({ s.bufs p with error := true }) }

/-- The function `mtk_vdec_stateless_out_to_done` (source lines 130-155). `bs` is the
address of the buffer record whose `bs_buffer` is passed, `none` for `NULL`. -/
def mtk_vdec_stateless_out_to_done (bs : Option Nat) (error : Int) (s : vdec_state) :
    vdec_state :=
  match bs with
  | none => s
  | some out_buf =>
    let s := v4l2_m2m_src_buf_remove s
    if error ≠ 0 then
      let s := v4l2_m2m_buf_done out_buf .VB2_BUF_STATE_ERROR s
      if error = - EIO then set_error out_buf s else s
    else
      v4l2_m2m_buf_done out_buf .VB2_BUF_STATE_DONE s

/-- The function `mtk_vdec_worker` (source lines 296-363). `ret` is the outcome the decode
backend gives if this invocation reaches it. -/
def mtk_vdec_worker (ret : Int) (s : vdec_state) : vdec_state :=
  match v4l2_m2m_next_src_buf s.ctx.m2m_ctx with
  | none => v4l2_m2m_job_finish s
  | some dec_buf_src =>
    let vb2_src := (s.bufs dec_buf_src).vb
    let bs_src : mtk_vcodec_mem :=
      { va := vb2_src.plane0.vaddr, dma_addr := vb2_src.plane0.dma_addr,
        size := vb2_src.plane0.bytesused }
    let dec_buf := { s.bufs dec_buf_src with bs_buffer := bs_src }
    let s := { s with bufs := Function.update s.bufs dec_buf_src dec_buf }
    if bs_src.va = 0 then v4l2_m2m_job_finish s
    else
      let src_buf_req := vb2_src.req
      let s := match src_buf_req with
        | some req => v4l2_ctrl_request_setup req s
        | none => s
      let s := vdec_if_decode (some dec_buf_src) s
      let s := if ret < 0 then (if ret = - EIO then set_error dec_buf_src s else s) else s
      let s := if ret ≤ 0 then
          v4l2_ctrl_request_complete src_buf_req
            (mtk_vdec_stateless_out_to_done (some dec_buf_src) ret s)
        else s
      v4l2_m2m_job_finish s

/-- The function `vb2ops_vdec_stateless_buf_queue` (source lines 365-393) for the buffer
at address `vb`. -/
def vb2ops_vdec_stateless_buf_queue (vb : Nat) (s : vdec_state) : vdec_state :=
  let s := v4l2_m2m_buf_queue vb s
  if (s.bufs vb).vb.type ≠ .VIDEO_OUTPUT_MPLANE then s
  else if s.ctx.state = .MTK_STATE_INIT then
    { s with ctx := { s.ctx with state := .MTK_STATE_HEADER } }
  else s

/-- One step of a session: a buffer is enqueued, or the worker runs and the backend, if
reached, gives the outcome `ret`. -/
inductive vdec_op where
  | buf_queue (vb : Nat)
  | worker (ret : Int)
  deriving DecidableEq, Repr

/-- Runs a sequence of steps, first step first. -/
def run_ops : List vdec_op → vdec_state → vdec_state
  | [], s => s
  | .buf_queue vb :: ops, s => run_ops ops (vb2ops_vdec_stateless_buf_queue vb s)
  | .worker ret :: ops, s => run_ops ops (mtk_vdec_worker ret s)

/-- Input buffers enqueued by a sequence of steps, in order; `bufs` is the memory the
queue type of a buffer is read from. -/
def enqueued_inputs (bufs : Nat → mtk_video_dec_buf) : List vdec_op → List Nat
  | [] => []
  | .buf_queue vb :: ops =>
    if V4L2_TYPE_IS_OUTPUT (bufs vb).vb.type then vb :: enqueued_inputs bufs ops
    else enqueued_inputs bufs ops
  | .worker _ :: ops => enqueued_inputs bufs ops

/-- Following the spec (4.1): the control identifiers required for a codec are those of
the table entries of that codec that carry the mandatory flag. -/
def is_required (codec_type : v4l2_pix_fmt) : List v4l2_cid :=
  (mtk_stateless_controls.filter
    fun c => decide (c.codec_type = codec_type) && c.needed_in_request).map (·.cfg_id)

/-- The control snapshot a request holds for the parent handler `parent`: the controls of
its first handler object made for `parent`, `none` when it has no such object. -/
def request_snapshot : List media_request_object → Nat → Option (List v4l2_cid)
  | [], _ => none
  | .handler priv ctrls _ :: rest, parent =>
    if priv = parent then some ctrls else request_snapshot rest parent
  | _ :: rest, parent => request_snapshot rest parent

/-- A request is complete for admission: it has exactly one buffer, that buffer object
(wherever it stands among the objects of the request) belongs to a queue whose `drv_priv`
is a context, the request holds a control snapshot for that context, and the snapshot
holds every control required for the context's current codec. -/
def request_admissible (mreq : media_request) : Prop :=
  vb2_request_buffer_cnt mreq = 1 ∧
  ∃ ctx ctrls, media_request_object.buffer (some ctx) ∈ mreq.objects ∧
    request_snapshot mreq.objects ctx.ctrl_hdl = some ctrls ∧
    ∀ id ∈ is_required ctx.current_codec, id ∈ ctrls

/-! ## Frame buffers and flush (source lines 157-223 and 395-400) -/

/-- Modelled from the spec: `v4l2_m2m_next_dst_buf` (v4l2-mem2mem, not in this file)
peeks the head of the pending-output queue. -/
def v4l2_m2m_next_dst_buf (m : v4l2_m2m_ctx) : Option Nat := m.dst_rdy.head?

/-- Modelled from the spec: `v4l2_m2m_dst_buf_remove` (v4l2-mem2mem, not in this file)
removes the head of the pending-output queue. -/
def v4l2_m2m_dst_buf_remove (s : vdec_state) : vdec_state :=
  { s with ctx := { s.ctx with m2m_ctx := { s.ctx.m2m_ctx with
      dst_rdy := s.ctx.m2m_ctx.dst_rdy.tail } } }

/-- Modelled from the spec: `vb2_set_plane_payload` (videobuf2, not in this file) sets
the produced byte size of plane `plane_no` of the buffer at address `vb`. -/
def vb2_set_plane_payload (vb plane_no size : Nat) (s : vdec_state) : vdec_state :=
  let buf := s.bufs vb
  let vb2 : vb2_buffer :=
    match plane_no with
    | 0 => { buf.vb with plane0 := { buf.vb.plane0 with payload := size } }
    | 1 => { buf.vb with plane1 := { buf.vb.plane1 with payload := size } }
    | _ => buf.vb
  let buf := { buf with vb := vb2 }
  { s with bufs := Function.update s.bufs vb buf }

/-- The function `mtk_vdec_stateless_cap_to_disp` (source lines 157-186). `fb` is the
address of the buffer record whose `frame_buffer` is passed, `none` for `NULL`. -/
def mtk_vdec_stateless_cap_to_disp (fb : Option Nat) (error : Int) (s : vdec_state) :
    vdec_state :=
  match fb with
  | none => s
  | some vdec_frame_buf =>
    let cap_y_size := s.ctx.q_data_dst.sizeimage0
    let cap_c_size := s.ctx.q_data_dst.sizeimage1
    let s := v4l2_m2m_dst_buf_remove s
    let s := vb2_set_plane_payload vdec_frame_buf 0 cap_y_size s
    let s := if s.ctx.q_data_dst.num_planes = 2 then
        vb2_set_plane_payload vdec_frame_buf 1 cap_c_size s
      else s
    if error ≠ 0 then v4l2_m2m_buf_done vdec_frame_buf .VB2_BUF_STATE_ERROR s
    else v4l2_m2m_buf_done vdec_frame_buf .VB2_BUF_STATE_DONE s

/-- The function `vdec_get_cap_buffer` (source lines 188-223). The result is the address
of the buffer record whose `frame_buffer` is returned (`none` for `NULL`) and the state
with that descriptor filled in. -/
def vdec_get_cap_buffer (s : vdec_state) : Option Nat × vdec_state :=
  match v4l2_m2m_next_dst_buf s.ctx.m2m_ctx with
  | none => (none, s)
  | some framebuf =>
    let dst_buf := (s.bufs framebuf).vb
    let pfb := (s.bufs framebuf).frame_buffer
    let pfb := { pfb with base_y := { va := dst_buf.plane0.vaddr,
                                      dma_addr := dst_buf.plane0.dma_addr,
                                      size := s.ctx.q_data_dst.sizeimage0 } }
    let pfb := if s.ctx.q_data_dst.num_planes = 2 then
        { pfb with base_c := { va := dst_buf.plane1.vaddr,
                               dma_addr := dst_buf.plane1.dma_addr,
                               size := s.ctx.q_data_dst.sizeimage1 } }
      else pfb
    let buf := { s.bufs framebuf with frame_buffer := pfb }
    (some framebuf, { s with bufs := Function.update s.bufs framebuf buf })

/-- The function `mtk_vdec_flush_decoder` (source lines 395-400). `ret` is the outcome
the decode backend gives; it is returned as it is. -/
def mtk_vdec_flush_decoder (ret : Int) (s : vdec_state) : Int × vdec_state :=
  (ret, vdec_if_decode none s)

/-! ## Format and framesize tables (source lines 113-128 and 444-534) -/

/-- Roles of a format (`enum mtk_fmt_type` in `mtk_vcodec_drv.h`), in declaration order:
`MTK_FMT_DEC` is the value 0 of a zero-initialised entry. -/
inductive mtk_fmt_type where
  | MTK_FMT_DEC
  | MTK_FMT_ENC
  | MTK_FMT_FRAME
  deriving DecidableEq, Repr

/-- The fields of `struct mtk_video_fmt` the file writes. -/
structure mtk_video_fmt where
  fourcc : v4l2_pix_fmt
  type : mtk_fmt_type
  num_planes : Nat
  deriving DecidableEq, Repr

/-- The `struct v4l2_frmsize_stepwise` of `videodev2.h`. -/
structure v4l2_frmsize_stepwise where
  min_width : Nat
  max_width : Nat
  step_width : Nat
  min_height : Nat
  max_height : Nat
  step_height : Nat
  deriving DecidableEq, Repr

/-- The `struct mtk_codec_framesizes`. -/
structure mtk_codec_framesizes where
  fourcc : v4l2_pix_fmt
  stepwise : v4l2_frmsize_stepwise
  deriving DecidableEq, Repr

/-- Macro `MTK_VDEC_MIN_W` of `mtk_vcodec_dec.h`. -/
def MTK_VDEC_MIN_W : Nat := 64

/-- Macro `MTK_VDEC_MAX_W` of `mtk_vcodec_dec.h`. -/
def MTK_VDEC_MAX_W : Nat := 2048

/-- Macro `MTK_VDEC_MIN_H` of `mtk_vcodec_dec.h`. -/
def MTK_VDEC_MIN_H : Nat := 64

/-- Macro `MTK_VDEC_MAX_H` of `mtk_vcodec_dec.h`. -/
def MTK_VDEC_MAX_H : Nat := 1088

/-- The variable `stepwise_fhd` (source lines 121-128). -/
def stepwise_fhd : v4l2_frmsize_stepwise :=
  { min_width := MTK_VDEC_MIN_W, max_width := MTK_VDEC_MAX_W, step_width := 16,
    min_height := MTK_VDEC_MIN_H, max_height := MTK_VDEC_MAX_H, step_height := 16 }

/-- Hardware architectures of the two platform descriptions at the end of the file. -/
inductive mtk_vdec_hw_arch where
  | MTK_VDEC_PURE_SIN_CORE
  | MTK_VDEC_LAT_SIN_CORE
  deriving DecidableEq, Repr

/-- The capability mask `ctx->dev->dec_capability`, read bit by bit: each field is the
truth value of `dec_capability & MTK_VDEC_FORMAT_x` for the flag `x` it is named after
(the flag values are in `mtk_vcodec_drv.h`). -/
structure dec_capability where
  MM21 : Bool
  MT21C : Bool
  H264_SLICE : Bool
  VP8_FRAME : Bool
  VP9_FRAME : Bool
  deriving DecidableEq, Repr

/-- The static variables of source lines 113-119. The two tables are lists of 5 and 3
entries. `fmt_writes` and `framesize_writes` record, oldest first, the index of every
write `mtk_vcodec_add_formats` makes into `mtk_video_formats` and `mtk_vdec_framesizes`;
a write at an index outside the table is recorded and leaves the table as it is. -/
structure fmt_tables where
  mtk_video_formats : List mtk_video_fmt
  mtk_vdec_framesizes : List mtk_codec_framesizes
  default_out_format : mtk_video_fmt
  default_cap_format : mtk_video_fmt
  num_formats : Nat
  num_framesizes : Nat
  fmt_writes : List Int
  framesize_writes : List Int
  deriving DecidableEq, Repr

/-- A zero-initialised `struct mtk_video_fmt`. -/
def fmt_zero : mtk_video_fmt := { fourcc := .other 0, type := .MTK_FMT_DEC, num_planes := 0 }

/-- A zero-initialised `struct mtk_codec_framesizes`. -/
def framesizes_zero : mtk_codec_framesizes :=
  { fourcc := .other 0,
    stepwise := { min_width := 0, max_width := 0, step_width := 0,
                  min_height := 0, max_height := 0, step_height := 0 } }

/-- The static variables when the module is loaded: everything zero, nothing written. -/
def tables_zero : fmt_tables :=
  { mtk_video_formats := List.replicate 5 fmt_zero,
    mtk_vdec_framesizes := List.replicate 3 framesizes_zero,
    default_out_format := fmt_zero, default_cap_format := fmt_zero,
    num_formats := 0, num_framesizes := 0, fmt_writes := [], framesize_writes := [] }

/-- Conversion of an `unsigned int` to `int` (`int count_formats = *pdata->num_formats`). -/
def to_int (u : Nat) : Int := if u < 2 ^ 31 then (u : Int) else (u : Int) - 2 ^ 32

/-- Array write `tbl[i] = x` on a table held as a list. -/
def table_write {α : Type} (tbl : List α) (i : Int) (x : α) : List α :=
  if 0 ≤ i then tbl.set i.toNat x else tbl

/-- The function `mtk_vcodec_add_formats` (source lines 444-479). Both platform
descriptions point `num_formats` and `num_framesizes` at the static counters. -/
def mtk_vcodec_add_formats (fourcc : v4l2_pix_fmt) (g : fmt_tables) : fmt_tables :=
  let count_formats := to_int g.num_formats
  let count_framesizes := to_int g.num_framesizes
  let dec (g : fmt_tables) : fmt_tables :=
    { g with
      mtk_video_formats := table_write g.mtk_video_formats count_formats
        { fourcc := fourcc, type := .MTK_FMT_DEC, num_planes := 1 },
      fmt_writes := g.fmt_writes ++ [count_formats],
      mtk_vdec_framesizes := table_write g.mtk_vdec_framesizes count_framesizes
        { fourcc := fourcc, stepwise := stepwise_fhd },
      framesize_writes := g.framesize_writes ++ [count_framesizes],
      num_framesizes := (g.num_framesizes + 1) % 2 ^ 32,
      num_formats := (g.num_formats + 1) % 2 ^ 32 }
  let frame (g : fmt_tables) : fmt_tables :=
    { g with
      mtk_video_formats := table_write g.mtk_video_formats count_formats
        { fourcc := fourcc, type := .MTK_FMT_FRAME, num_planes := 2 },
      fmt_writes := g.fmt_writes ++ [count_formats],
      num_formats := (g.num_formats + 1) % 2 ^ 32 }
  match fourcc with
  | .H264_SLICE => dec g
  | .VP8_FRAME => dec g
  | .VP9_FRAME => dec g
  | .MM21 => frame g
  | .MT21C => frame g
  | .other _ => g

/-- The function `mtk_vcodec_get_supported_formats` (source lines 481-514). -/
def mtk_vcodec_get_supported_formats (cap : dec_capability) (g : fmt_tables) : fmt_tables :=
  if g.num_formats ≠ 0 ∧ g.num_framesizes ≠ 0 then g
  else
    let cap_format_count : Nat := 0
    let out_format_count : Nat := 0
    let (g, cap_format_count) :=
      if cap.MM21 then (mtk_vcodec_add_formats .MM21 g, cap_format_count + 1)
      else (g, cap_format_count)
    let (g, cap_format_count) :=
      if cap.MT21C then (mtk_vcodec_add_formats .MT21C g, cap_format_count + 1)
      else (g, cap_format_count)
    let (g, out_format_count) :=
      if cap.H264_SLICE then (mtk_vcodec_add_formats .H264_SLICE g, out_format_count + 1)
      else (g, out_format_count)
    let (g, out_format_count) :=
      if cap.VP8_FRAME then (mtk_vcodec_add_formats .VP8_FRAME g, out_format_count + 1)
      else (g, out_format_count)
    let (g, out_format_count) :=
      if cap.VP9_FRAME then (mtk_vcodec_add_formats .VP9_FRAME g, out_format_count + 1)
      else (g, out_format_count)
    let g :=
      if cap_format_count ≠ 0 then
        { g with default_cap_format := g.mtk_video_formats.getD (cap_format_count - 1) fmt_zero }
      else g
    if out_format_count ≠ 0 then
      { g with default_out_format :=
          g.mtk_video_formats.getD (cap_format_count + out_format_count - 1) fmt_zero }
    else g

/-- The function `mtk_init_vdec_params` (source lines 516-534), as far as the static
tables go; the queue flags it also sets play no part here. -/
def mtk_init_vdec_params (hw_arch : mtk_vdec_hw_arch) (cap : dec_capability)
    (g : fmt_tables) : fmt_tables :=
  if hw_arch ≠ .MTK_VDEC_PURE_SIN_CORE then mtk_vcodec_get_supported_formats cap g
  else mtk_vcodec_add_formats .MM21 (mtk_vcodec_add_formats .H264_SLICE g)

/-- The static tables after `n` context initialisations on one device. -/
def run_inits (hw_arch : mtk_vdec_hw_arch) (cap : dec_capability) :
    Nat → fmt_tables → fmt_tables
  | 0, g => g
  | n + 1, g => run_inits hw_arch cap n (mtk_init_vdec_params hw_arch cap g)

/-- Capture formats a capability mask enables, in the order the code adds them. -/
def enabled_capture (cap : dec_capability) : List v4l2_pix_fmt :=
  (if cap.MM21 then [v4l2_pix_fmt.MM21] else []) ++
  (if cap.MT21C then [v4l2_pix_fmt.MT21C] else [])

/-- Compressed formats a capability mask enables, in the order the code adds them. -/
def enabled_compressed (cap : dec_capability) : List v4l2_pix_fmt :=
  (if cap.H264_SLICE then [v4l2_pix_fmt.H264_SLICE] else []) ++
  (if cap.VP8_FRAME then [v4l2_pix_fmt.VP8_FRAME] else []) ++
  (if cap.VP9_FRAME then [v4l2_pix_fmt.VP9_FRAME] else [])

/-- Table entry of a capture format: type `MTK_FMT_FRAME`, 2 planes. -/
def capture_fmt (fourcc : v4l2_pix_fmt) : mtk_video_fmt :=
  { fourcc := fourcc, type := .MTK_FMT_FRAME, num_planes := 2 }

/-- Table entry of a compressed format: type `MTK_FMT_DEC`, 1 plane. -/
def compressed_fmt (fourcc : v4l2_pix_fmt) : mtk_video_fmt :=
  { fourcc := fourcc, type := .MTK_FMT_DEC, num_planes := 1 }

/-! ## Concrete sessions and requests -/

/-- A freshly opened H.264 session: initial lifecycle state, empty ready queues. -/
def ctx_h264 : mtk_vcodec_ctx :=
  { id := 1, state := .MTK_STATE_INIT, current_codec := .H264_SLICE, ctrl_hdl := 100,
    m2m_ctx := { src_rdy := [], dst_rdy := [] },
    q_data_dst := { sizeimage0 := 2088960, sizeimage1 := 1044480, num_planes := 2 },
    decoded_frame_cnt := 0 }

/-- A request for `ctx_h264` with one buffer and a snapshot holding only SPS and PPS. -/
def req_sps_pps : media_request :=
  { objects := [.handler 100 [.STATELESS_H264_SPS, .STATELESS_H264_PPS] 1,
                .buffer (some ctx_h264)] }

/-- A request for `ctx_h264` with one buffer and every control H.264 needs. -/
def req_h264_full : media_request :=
  { objects := [.handler 100 [.STATELESS_H264_SPS, .STATELESS_H264_PPS,
                  .STATELESS_H264_SCALING_MATRIX, .STATELESS_H264_DECODE_PARAMS,
                  .STATELESS_H264_DECODE_MODE] 1,
                .buffer (some ctx_h264)] }

/-- A request with two buffers and the full H.264 snapshot. -/
def req_two_buffers : media_request :=
  { objects := .buffer (some ctx_h264) :: req_h264_full.objects }

/-- A buffer-queue admission check that accepts and counts its invocations. -/
def vb2_accept : media_request → Nat → Int × Nat := fun _ n => (0, n + 1)

/-- Validator state for a request: nothing validated, no call made yet. -/
def req_start (mreq : media_request) : req_state Nat := { mreq := mreq, vb2 := 0, calls := [] }

/-- A mapped bitstream buffer bound to request `7`. -/
def buf_bitstream : mtk_video_dec_buf :=
  { vb := { index := 0, type := .VIDEO_OUTPUT_MPLANE,
            plane0 := { vaddr := 4096, dma_addr := 8192, bytesused := 1500, payload := 0 },
            plane1 := { vaddr := 0, dma_addr := 0, bytesused := 0, payload := 0 },
            req := some 7 },
    bs_buffer := { va := 0, dma_addr := 0, size := 0 },
    frame_buffer := { base_y := { va := 0, dma_addr := 0, size := 0 },
                      base_c := { va := 0, dma_addr := 0, size := 0 } },
    error := false }

/-- A mapped two-plane frame buffer. -/
def buf_frame : mtk_video_dec_buf :=
  { vb := { index := 0, type := .VIDEO_CAPTURE_MPLANE,
            plane0 := { vaddr := 65536, dma_addr := 131072, bytesused := 0, payload := 0 },
            plane1 := { vaddr := 69632, dma_addr := 135168, bytesused := 0, payload := 0 },
            req := none },
    bs_buffer := { va := 0, dma_addr := 0, size := 0 },
    frame_buffer := { base_y := { va := 0, dma_addr := 0, size := 0 },
                      base_c := { va := 0, dma_addr := 0, size := 0 } },
    error := false }

/-- Memory with bitstream buffers at the addresses `1`, `2`, `3` and frame buffers
everywhere else. -/
def mem_bufs : Nat → mtk_video_dec_buf :=
  fun p => if p = 1 ∨ p = 2 ∨ p = 3 then buf_bitstream else buf_frame

/-- A fresh session: nothing queued, nothing completed. -/
def session_fresh : vdec_state :=
  { ctx := ctx_h264, bufs := mem_bufs, done := [], job_finish := 0, request_setup := [],
    request_complete := [], decode := [] }

/-- A session with exactly one pending input buffer (address `1`) and no pending output
buffer. -/
def session_one_input : vdec_state :=
  { session_fresh with
    ctx := { ctx_h264 with state := .MTK_STATE_HEADER,
                           m2m_ctx := { src_rdy := [1], dst_rdy := [] } } }

/-- A session with two pending output buffers (addresses `4` and `5`) and no pending
input buffer. -/
def session_two_outputs : vdec_state :=
  { session_fresh with
    ctx := { ctx_h264 with m2m_ctx := { src_rdy := [], dst_rdy := [4, 5] } } }

/-- A bitstream buffer that has no kernel mapping. -/
def buf_unmapped : mtk_video_dec_buf :=
  { buf_bitstream with
    vb := { buf_bitstream.vb with
            plane0 := { vaddr := 0, dma_addr := 8192, bytesused := 1500, payload := 0 } } }

/-- A session whose only pending input buffer (address `1`) has no kernel mapping. -/
def session_unmapped_input : vdec_state :=
  { session_one_input with bufs := fun p => if p = 1 then buf_unmapped else mem_bufs p }

/-- A capability mask with every format flag set. -/
def cap_all : dec_capability :=
  { MM21 := true, MT21C := true, H264_SLICE := true, VP8_FRAME := true, VP9_FRAME := true }

/-- A capability mask with no format flag set. -/
def cap_none : dec_capability :=
  { MM21 := false, MT21C := false, H264_SLICE := false, VP8_FRAME := false,
    VP9_FRAME := false }

/-! ## The request validator -/

theorem required_ctrls_loop_fst (objs : List media_request_object) (hdl : Nat)
    (codec : v4l2_pix_fmt) (tbl : List mtk_stateless_control) :
    ∀ calls, (required_ctrls_loop objs hdl codec tbl calls).1 = true ↔
      ∀ c ∈ tbl, c.codec_type = codec → c.needed_in_request = true →
        c.cfg_id ∈ hdl_ctrls objs hdl := by
  induction tbl with
  | nil => intro calls; simp [required_ctrls_loop]
  | cons c tbl ih =>
    intro calls
    unfold required_ctrls_loop
    by_cases hc : c.codec_type = codec
    · by_cases hn : c.needed_in_request = true
      · by_cases hm : c.cfg_id ∈ hdl_ctrls objs hdl
        · simp [hc, hn, hm, v4l2_ctrl_request_hdl_ctrl_find, ih]
        · simp [hc, hn, hm, v4l2_ctrl_request_hdl_ctrl_find]
      · simp [hc, hn, ih]
    · simp [hc, ih]

theorem required_ctrls_loop_snd (objs : List media_request_object) (hdl : Nat)
    (codec : v4l2_pix_fmt) (tbl : List mtk_stateless_control) :
    ∀ calls, ∃ added, (required_ctrls_loop objs hdl codec tbl calls).2 = calls ++ added ∧
      req_call.request_validate ∉ added ∧ req_call.hdl_put ∉ added := by
  induction tbl with
  | nil => intro calls; exact ⟨[], by simp [required_ctrls_loop]⟩
  | cons c tbl ih =>
    intro calls
    unfold required_ctrls_loop
    by_cases hc : c.codec_type = codec
    · by_cases hn : c.needed_in_request = true
      · by_cases hm : c.cfg_id ∈ hdl_ctrls objs hdl
        · obtain ⟨added, h1, h2, h3⟩ := ih (calls ++ [req_call.hdl_ctrl_find c.cfg_id])
          refine ⟨req_call.hdl_ctrl_find c.cfg_id :: added, ?_, ?_, ?_⟩
          · simp [hc, hn, hm, v4l2_ctrl_request_hdl_ctrl_find, h1]
          · simp [h2]
          · simp [h3]
        · exact ⟨[req_call.hdl_ctrl_find c.cfg_id],
            by simp [hc, hn, hm, v4l2_ctrl_request_hdl_ctrl_find]⟩
      · obtain ⟨added, h1, h2⟩ := ih calls
        exact ⟨added, by simp [hc, hn, h1], h2⟩
    · obtain ⟨added, h1, h2⟩ := ih calls
      exact ⟨added, by simp [hc, h1], h2⟩

theorem is_required_iff (codec : v4l2_pix_fmt) (ctrls : List v4l2_cid) :
    (∀ id ∈ is_required codec, id ∈ ctrls) ↔
      ∀ c ∈ mtk_stateless_controls, c.codec_type = codec → c.needed_in_request = true →
        c.cfg_id ∈ ctrls := by
  unfold is_required
  constructor
  · intro h c hc h1 h2
    apply h
    simp only [List.mem_map, List.mem_filter]
    exact ⟨c, ⟨hc, by simp [h1, h2]⟩, rfl⟩
  · intro h id hid
    simp only [List.mem_map, List.mem_filter] at hid
    obtain ⟨c, ⟨hc, hb⟩, rfl⟩ := hid
    simp only [Bool.and_eq_true, decide_eq_true_eq] at hb
    exact h c hc hb.1 hb.2

theorem hdl_find_none (objs : List media_request_object) (parent : Nat) :
    request_snapshot objs parent = none → v4l2_ctrl_request_hdl_find objs parent = none := by
  induction objs with
  | nil => intro _; rfl
  | cons o rest ih =>
    intro h
    cases o with
    | buffer d => simp [request_snapshot] at h; simp [v4l2_ctrl_request_hdl_find, ih h]
    | other => simp [request_snapshot] at h; simp [v4l2_ctrl_request_hdl_find, ih h]
    | handler priv ctrls kref =>
      by_cases hp : priv = parent
      · simp [request_snapshot, hp] at h
      · simp [request_snapshot, hp] at h; simp [v4l2_ctrl_request_hdl_find, hp, ih h]

theorem hdl_find_some (objs : List media_request_object) (parent : Nat) :
    ∀ ctrls, request_snapshot objs parent = some ctrls →
      ∃ hdl objs', v4l2_ctrl_request_hdl_find objs parent = some (hdl, objs') ∧
        hdl_ctrls objs' hdl = ctrls ∧ v4l2_ctrl_request_hdl_put objs' hdl = objs := by
  induction objs with
  | nil => intro ctrls h; simp [request_snapshot] at h
  | cons o rest ih =>
    intro cs h
    cases o with
    | buffer d =>
      simp [request_snapshot] at h
      obtain ⟨hdl, objs', h1, h2, h3⟩ := ih cs h
      exact ⟨hdl + 1, .buffer d :: objs',
        by simp [v4l2_ctrl_request_hdl_find, h1], by simp [hdl_ctrls, h2],
        by simp [v4l2_ctrl_request_hdl_put, h3]⟩
    | other =>
      simp [request_snapshot] at h
      obtain ⟨hdl, objs', h1, h2, h3⟩ := ih cs h
      exact ⟨hdl + 1, .other :: objs',
        by simp [v4l2_ctrl_request_hdl_find, h1], by simp [hdl_ctrls, h2],
        by simp [v4l2_ctrl_request_hdl_put, h3]⟩
    | handler priv ctrls kref =>
      by_cases hp : priv = parent
      · simp [request_snapshot, hp] at h
        exact ⟨0, .handler priv ctrls (kref + 1) :: rest,
          by simp [v4l2_ctrl_request_hdl_find, hp], by simp [hdl_ctrls, h],
          by simp [v4l2_ctrl_request_hdl_put]⟩
      · simp [request_snapshot, hp] at h
        obtain ⟨hdl, objs', h1, h2, h3⟩ := ih cs h
        exact ⟨hdl + 1, .handler priv ctrls kref :: objs',
          by simp [v4l2_ctrl_request_hdl_find, hp, h1], by simp [hdl_ctrls, h2],
          by simp [v4l2_ctrl_request_hdl_put, h3]⟩

/-- The context lookup of the validator only ever returns the context of a buffer object
of the request. -/
theorem ctx_lookup_mem (objs : List media_request_object) (ctx : mtk_vcodec_ctx) :
    request_ctx_lookup objs = some ctx → media_request_object.buffer (some ctx) ∈ objs := by
  induction objs with
  | nil => intro h; simp [request_ctx_lookup] at h
  | cons o rest ih =>
    intro h
    cases o with
    | buffer d =>
      simp only [request_ctx_lookup] at h
      subst h
      exact List.mem_cons_self _ _
    | handler priv ctrls kref =>
      simp only [request_ctx_lookup] at h
      exact List.mem_cons_of_mem _ (ih h)
    | other =>
      simp only [request_ctx_lookup] at h
      exact List.mem_cons_of_mem _ (ih h)

/-- In a request with exactly one buffer, the context lookup of the validator finds the
context of that buffer, wherever the buffer stands among the objects. -/
theorem ctx_lookup_of_single_buffer (objs : List media_request_object)
    (ctx : mtk_vcodec_ctx) :
    (objs.filter vb2_request_object_is_buffer).length = 1 →
    media_request_object.buffer (some ctx) ∈ objs →
    request_ctx_lookup objs = some ctx := by
  induction objs with
  | nil => intro _ h; simp at h
  | cons o rest ih =>
    intro hcnt hmem
    cases o with
    | buffer d =>
      simp only [List.filter, vb2_request_object_is_buffer, List.length_cons,
        Nat.add_left_eq_self, List.length_eq_zero] at hcnt
      rcases List.mem_cons.mp hmem with h | h
      · cases h
        rfl
      · have hb : media_request_object.buffer (some ctx) ∈
            rest.filter vb2_request_object_is_buffer :=
          List.mem_filter.mpr ⟨h, rfl⟩
        rw [hcnt] at hb
        simp at hb
    | handler priv ctrls kref =>
      simp only [List.filter, vb2_request_object_is_buffer] at hcnt
      rcases List.mem_cons.mp hmem with h | h
      · cases h
      · simpa [request_ctx_lookup] using ih hcnt h
    | other =>
      simp only [List.filter, vb2_request_object_is_buffer] at hcnt
      rcases List.mem_cons.mp hmem with h | h
      · cases h
      · simpa [request_ctx_lookup] using ih hcnt h

theorem validate_found {Q : Type}
    (vb2_request_validate : media_request → Q → Int × Q) (s : req_state Q)
    (ctx : mtk_vcodec_ctx) (ctrls : List v4l2_cid)
    (hcnt : vb2_request_buffer_cnt s.mreq = 1)
    (hctx : request_ctx_lookup s.mreq.objects = some ctx)
    (hhdl : request_snapshot s.mreq.objects ctx.ctrl_hdl = some ctrls) :
    ∃ hdl objs' added,
      v4l2_ctrl_request_hdl_find s.mreq.objects ctx.ctrl_hdl = some (hdl, objs') ∧
      req_call.request_validate ∉ added ∧ req_call.hdl_put ∉ added ∧
      ((∀ id ∈ is_required ctx.current_codec, id ∈ ctrls) →
        fops_media_request_validate vb2_request_validate s =
          ((vb2_request_validate s.mreq s.vb2).1,
            { mreq := s.mreq, vb2 := (vb2_request_validate s.mreq s.vb2).2,
              calls := s.calls ++ added ++ [req_call.hdl_put, req_call.request_validate] })) ∧
      ((¬ ∀ id ∈ is_required ctx.current_codec, id ∈ ctrls) →
        fops_media_request_validate vb2_request_validate s =
          (-ENOENT, { mreq := { objects := objs' }, vb2 := s.vb2, calls := s.calls ++ added })) := by
  obtain ⟨hdl, objs', hfind, hcs, hput⟩ := hdl_find_some _ _ _ hhdl
  obtain ⟨added, hadd, hnv, hnp⟩ := required_ctrls_loop_snd objs' hdl ctx.current_codec
    mtk_stateless_controls
    (s.calls ++ [req_call.get_drv_priv] ++ [req_call.hdl_find ctx.ctrl_hdl])
  have hfst := required_ctrls_loop_fst objs' hdl ctx.current_codec mtk_stateless_controls
    (s.calls ++ [req_call.get_drv_priv] ++ [req_call.hdl_find ctx.ctrl_hdl])
  rw [hcs, ← is_required_iff] at hfst
  refine ⟨hdl, objs', [req_call.get_drv_priv, req_call.hdl_find ctx.ctrl_hdl] ++ added,
    hfind, by simp [hnv], by simp [hnp], ?_, ?_⟩
  · intro hall
    have heq : required_ctrls_loop objs' hdl ctx.current_codec mtk_stateless_controls
        (s.calls ++ [req_call.get_drv_priv] ++ [req_call.hdl_find ctx.ctrl_hdl]) =
        (true, s.calls ++ [req_call.get_drv_priv] ++ [req_call.hdl_find ctx.ctrl_hdl] ++ added) :=
      Prod.ext (hfst.mpr hall) hadd
    unfold fops_media_request_validate
    simp only [hcnt, hctx, hfind, heq, hput]
    cases s
    simp
  · intro hall
    have heq : required_ctrls_loop objs' hdl ctx.current_codec mtk_stateless_controls
        (s.calls ++ [req_call.get_drv_priv] ++ [req_call.hdl_find ctx.ctrl_hdl]) =
        (false, s.calls ++ [req_call.get_drv_priv] ++ [req_call.hdl_find ctx.ctrl_hdl] ++ added) :=
      Prod.ext (by rw [Bool.eq_false_iff]; exact fun h => hall (hfst.mp h)) hadd
    unfold fops_media_request_validate
    simp only [hcnt, hctx, hfind, heq]
    simp

theorem validate_shape {Q : Type}
    (vb2_request_validate : media_request → Q → Int × Q) (s : req_state Q)
    (hcnt : vb2_request_buffer_cnt s.mreq ≠ 1) :
    fops_media_request_validate vb2_request_validate s =
      (if vb2_request_buffer_cnt s.mreq = 0 then -ENOENT else -EINVAL, s) := by
  unfold fops_media_request_validate
  rcases h : vb2_request_buffer_cnt s.mreq with _ | _ | n
  · simp
  · exact absurd h hcnt
  · simp

/-! ## The decode worker and the buffer-queue event handler -/

/-- Closed form of one worker invocation that reaches the decode backend: the head `p`
of the pending-input queue has a mapping, the backend gives `ret`. -/
theorem worker_reached (ret : Int) (s : vdec_state) (p : Nat)
    (hhead : v4l2_m2m_next_src_buf s.ctx.m2m_ctx = some p)
    (hva : (s.bufs p).vb.plane0.vaddr ≠ 0) :
    (mtk_vdec_worker ret s).job_finish = s.job_finish + 1 ∧
    (mtk_vdec_worker ret s).decode = s.decode ++ [some p] ∧
    (mtk_vdec_worker ret s).request_setup =
      s.request_setup ++ (s.bufs p).vb.req.toList ∧
    (mtk_vdec_worker ret s).ctx = { s.ctx with m2m_ctx := { s.ctx.m2m_ctx with
      src_rdy := if ret ≤ 0 then s.ctx.m2m_ctx.src_rdy.tail else s.ctx.m2m_ctx.src_rdy } } ∧
    (mtk_vdec_worker ret s).done =
      (if ret ≤ 0 then s.done ++ [(p, if ret < 0 then vb2_buffer_state.VB2_BUF_STATE_ERROR
        else vb2_buffer_state.VB2_BUF_STATE_DONE)] else s.done) ∧
    (mtk_vdec_worker ret s).request_complete =
      (if ret ≤ 0 then s.request_complete ++ [(s.bufs p).vb.req] else s.request_complete) ∧
    (mtk_vdec_worker ret s).bufs = Function.update s.bufs p
      { s.bufs p with
        bs_buffer := { va := (s.bufs p).vb.plane0.vaddr,
                       dma_addr := (s.bufs p).vb.plane0.dma_addr,
                       size := (s.bufs p).vb.plane0.bytesused },
        error := if ret = - EIO then true else (s.bufs p).error } := by
  unfold mtk_vdec_worker mtk_vdec_stateless_out_to_done
  simp only [hhead, hva, if_false]
  rcases lt_trichotomy ret 0 with hlt | hz | hgt
  · have c1 : (ret < 0) = True := eq_true hlt
    have c2 : (ret ≤ 0) = True := eq_true (le_of_lt hlt)
    have c3 : (ret = 0) = False := eq_false (ne_of_lt hlt)
    by_cases hcode : ret = - EIO
    · have c4 : (ret = - EIO) = True := eq_true hcode
      simp only [c1, c2, c3, c4, if_true, if_false, ne_eq, not_false_eq_true]
      cases (s.bufs p).vb.req <;>
      simp [v4l2_ctrl_request_complete, v4l2_m2m_job_finish, v4l2_m2m_buf_done,
        v4l2_m2m_src_buf_remove, set_error, vdec_if_decode, v4l2_ctrl_request_setup]
    · have c4 : (ret = - EIO) = False := eq_false hcode
      simp only [c1, c2, c3, c4, if_true, if_false, ne_eq, not_false_eq_true]
      cases (s.bufs p).vb.req <;>
      simp [v4l2_ctrl_request_complete, v4l2_m2m_job_finish, v4l2_m2m_buf_done,
        v4l2_m2m_src_buf_remove, set_error, vdec_if_decode, v4l2_ctrl_request_setup]
  · have c1 : (ret < 0) = False := eq_false (by omega)
    have c2 : (ret ≤ 0) = True := eq_true (le_of_eq hz)
    have c3 : (ret = 0) = True := eq_true hz
    have c4 : (ret = - EIO) = False := eq_false (by rw [hz]; decide)
    simp only [c1, c2, c3, c4, if_true, if_false, ne_eq, not_true_eq_false]
    cases (s.bufs p).vb.req <;>
    simp [v4l2_ctrl_request_complete, v4l2_m2m_job_finish, v4l2_m2m_buf_done,
      v4l2_m2m_src_buf_remove, set_error, vdec_if_decode, v4l2_ctrl_request_setup]
  · have c1 : (ret < 0) = False := eq_false (by omega)
    have c2 : (ret ≤ 0) = False := eq_false (by omega)
    have c4 : (ret = - EIO) = False :=
      eq_false (fun h => absurd (h ▸ hgt) (by decide))
    simp only [c1, c2, c4, if_true, if_false]
    cases (s.bufs p).vb.req <;>
    simp [v4l2_ctrl_request_complete, v4l2_m2m_job_finish, v4l2_m2m_buf_done,
      v4l2_m2m_src_buf_remove, set_error, vdec_if_decode, v4l2_ctrl_request_setup]

theorem worker_no_src (ret : Int) (s : vdec_state)
    (hsrc : s.ctx.m2m_ctx.src_rdy = []) :
    mtk_vdec_worker ret s = { s with job_finish := s.job_finish + 1 } := by
  unfold mtk_vdec_worker
  simp [v4l2_m2m_next_src_buf, hsrc, v4l2_m2m_job_finish]

theorem worker_null_va (ret : Int) (s : vdec_state) (p : Nat)
    (hhead : v4l2_m2m_next_src_buf s.ctx.m2m_ctx = some p)
    (hva : (s.bufs p).vb.plane0.vaddr = 0) :
    mtk_vdec_worker ret s =
      { s with
        bufs := Function.update s.bufs p
          { s.bufs p with
            bs_buffer := { va := 0, dma_addr := (s.bufs p).vb.plane0.dma_addr,
                           size := (s.bufs p).vb.plane0.bytesused } },
        job_finish := s.job_finish + 1 } := by
  unfold mtk_vdec_worker
  simp [hhead, hva, v4l2_m2m_job_finish]

theorem buf_queue_fields (vb : Nat) (s : vdec_state) :
    (vb2ops_vdec_stateless_buf_queue vb s).bufs = s.bufs ∧
    (vb2ops_vdec_stateless_buf_queue vb s).done = s.done ∧
    (vb2ops_vdec_stateless_buf_queue vb s).ctx.m2m_ctx.src_rdy =
      s.ctx.m2m_ctx.src_rdy ++ (if V4L2_TYPE_IS_OUTPUT (s.bufs vb).vb.type then [vb] else []) ∧
    (vb2ops_vdec_stateless_buf_queue vb s).ctx.m2m_ctx.dst_rdy =
      s.ctx.m2m_ctx.dst_rdy ++ (if V4L2_TYPE_IS_OUTPUT (s.bufs vb).vb.type then [] else [vb]) ∧
    (vb2ops_vdec_stateless_buf_queue vb s).ctx.state =
      (if (s.bufs vb).vb.type = v4l2_buf_type.VIDEO_OUTPUT_MPLANE ∧
          s.ctx.state = mtk_instance_state.MTK_STATE_INIT
        then mtk_instance_state.MTK_STATE_HEADER else s.ctx.state) := by
  unfold vb2ops_vdec_stateless_buf_queue v4l2_m2m_buf_queue
  cases ht : (s.bufs vb).vb.type <;> cases hs : s.ctx.state <;>
    simp [ht, hs, V4L2_TYPE_IS_OUTPUT]

theorem worker_step (ret : Int) (t : vdec_state) :
    (∀ q, ((mtk_vdec_worker ret t).bufs q).vb = (t.bufs q).vb) ∧
    (((mtk_vdec_worker ret t).done = t.done ∧
        (mtk_vdec_worker ret t).ctx.m2m_ctx.src_rdy = t.ctx.m2m_ctx.src_rdy) ∨
      ∃ p rest st, t.ctx.m2m_ctx.src_rdy = p :: rest ∧
        (mtk_vdec_worker ret t).ctx.m2m_ctx.src_rdy = rest ∧
        (mtk_vdec_worker ret t).done = t.done ++ [(p, st)] ∧
        (mtk_vdec_worker ret t).decode = t.decode ++ [some p]) ∧
    ((mtk_vdec_worker ret t).decode = t.decode ∨
      ∃ p, t.ctx.m2m_ctx.src_rdy.head? = some p ∧
        (mtk_vdec_worker ret t).decode = t.decode ++ [some p]) := by
  cases hsrc : t.ctx.m2m_ctx.src_rdy with
  | nil =>
    rw [worker_no_src ret t hsrc]
    exact ⟨fun _ => rfl, Or.inl ⟨rfl, hsrc⟩, Or.inl rfl⟩
  | cons p rest =>
    have hhead : v4l2_m2m_next_src_buf t.ctx.m2m_ctx = some p := by
      simp [v4l2_m2m_next_src_buf, hsrc]
    by_cases hva : (t.bufs p).vb.plane0.vaddr = 0
    · rw [worker_null_va ret t p hhead hva]
      refine ⟨fun q => ?_, Or.inl ⟨rfl, hsrc⟩, Or.inl rfl⟩
      by_cases hq : q = p
      · subst hq; simp
      · simp [Function.update, hq]
    · obtain ⟨_, hdec, _, hctx, hdone, _, hbufs⟩ := worker_reached ret t p hhead hva
      refine ⟨fun q => ?_, ?_, Or.inr ⟨p, by simp, hdec⟩⟩
      · rw [hbufs]
        by_cases hq : q = p
        · subst hq; simp
        · simp [Function.update, hq]
      · by_cases hle : ret ≤ 0
        · refine Or.inr ⟨p, rest, (if ret < 0 then vb2_buffer_state.VB2_BUF_STATE_ERROR
            else vb2_buffer_state.VB2_BUF_STATE_DONE), rfl, ?_, ?_, hdec⟩
          · rw [hctx]; simp [hle, hsrc]
          · rw [hdone, if_pos hle]
        · refine Or.inl ⟨?_, ?_⟩
          · rw [hdone, if_neg hle]
          · rw [hctx]; simp [hle, hsrc]

theorem enqueued_inputs_congr (b1 b2 : Nat → mtk_video_dec_buf)
    (h : ∀ q, (b1 q).vb = (b2 q).vb) (ops : List vdec_op) :
    enqueued_inputs b1 ops = enqueued_inputs b2 ops := by
  induction ops with
  | nil => rfl
  | cons op ops ih =>
    cases op with
    | buf_queue vb => simp [enqueued_inputs, h vb, ih]
    | worker ret => simp [enqueued_inputs, ih]

theorem run_ops_fifo (ops : List vdec_op) :
    ∀ s : vdec_state, ∃ completed, (run_ops ops s).done = s.done ++ completed ∧
      completed.map Prod.fst ++ (run_ops ops s).ctx.m2m_ctx.src_rdy =
        s.ctx.m2m_ctx.src_rdy ++ enqueued_inputs s.bufs ops := by
  induction ops with
  | nil => intro s; exact ⟨[], by simp [run_ops, enqueued_inputs]⟩
  | cons op ops ih =>
    intro s
    cases op with
    | buf_queue vb =>
      obtain ⟨hb, hd, hq, _, _⟩ := buf_queue_fields vb s
      obtain ⟨completed, h1, h2⟩ := ih (vb2ops_vdec_stateless_buf_queue vb s)
      refine ⟨completed, ?_, ?_⟩
      · simp only [run_ops]; rw [h1, hd]
      · simp only [run_ops]; rw [h2, hq, hb]
        by_cases ht : V4L2_TYPE_IS_OUTPUT (s.bufs vb).vb.type = true <;>
          simp [enqueued_inputs, ht]
    | worker ret =>
      obtain ⟨hvb, hstep, _⟩ := worker_step ret s
      obtain ⟨completed, h1, h2⟩ := ih (mtk_vdec_worker ret s)
      rw [enqueued_inputs_congr _ _ hvb] at h2
      rcases hstep with ⟨hd, hq⟩ | ⟨p, rest, st, hsrc, hq, hd, _⟩
      · refine ⟨completed, ?_, ?_⟩
        · simp only [run_ops]; rw [h1, hd]
        · simp only [run_ops, enqueued_inputs]; rw [h2, hq]
      · refine ⟨(p, st) :: completed, ?_, ?_⟩
        · simp only [run_ops]; rw [h1, hd]; simp
        · simp only [run_ops, enqueued_inputs]
          rw [List.map_cons, List.cons_append, h2, hq, hsrc]; simp

/-! ## Properties of the request validator -/

/-- Claim C1: a request with exactly one buffer, whose context and control snapshot are
found, and whose snapshot lacks a control that the table marks as needed in a request for
the context's current codec, is rejected with `-ENOENT`; the buffer-queue admission check
is not called and the state of the buffer-queue collaborator is unchanged. -/
theorem missing_mandatory_control_rejected {Q : Type}
    (vb2_request_validate : media_request → Q → Int × Q) (s : req_state Q)
    (ctx : mtk_vcodec_ctx) (ctrls : List v4l2_cid) (c : mtk_stateless_control)
    (hcnt : vb2_request_buffer_cnt s.mreq = 1)
    (hctx : request_ctx_lookup s.mreq.objects = some ctx)
    (hhdl : request_snapshot s.mreq.objects ctx.ctrl_hdl = some ctrls)
    (hc : c ∈ mtk_stateless_controls)
    (hcodec : c.codec_type = ctx.current_codec)
    (hneeded : c.needed_in_request = true)
    (hmiss : c.cfg_id ∉ ctrls) :
    (fops_media_request_validate vb2_request_validate s).1 = -ENOENT ∧
    (fops_media_request_validate vb2_request_validate s).2.vb2 = s.vb2 ∧
    ∃ added, (fops_media_request_validate vb2_request_validate s).2.calls = s.calls ++ added ∧
      req_call.request_validate ∉ added := by
  obtain ⟨hdl, objs', added, _, hnv, _, _, hrej⟩ :=
    validate_found vb2_request_validate s ctx ctrls hcnt hctx hhdl
  rw [hrej (fun h => hmiss ((is_required_iff _ _).mp h c hc hcodec hneeded))]
  exact ⟨rfl, rfl, added, rfl, hnv⟩

/-- Witness for C1: an H.264 context given a snapshot holding only SPS and PPS is rejected
(the decode parameters are among the controls it lacks). -/
theorem missing_mandatory_control_rejected_witness :
    (fops_media_request_validate vb2_accept (req_start req_sps_pps)).1 = -ENOENT ∧
    (fops_media_request_validate vb2_accept (req_start req_sps_pps)).2.vb2 = 0 ∧
    ∃ added, (fops_media_request_validate vb2_accept (req_start req_sps_pps)).2.calls =
        [] ++ added ∧
      req_call.request_validate ∉ added :=
  missing_mandatory_control_rejected vb2_accept (req_start req_sps_pps) ctx_h264
    [.STATELESS_H264_SPS, .STATELESS_H264_PPS]
    { cfg_id := .STATELESS_H264_DECODE_PARAMS, codec_type := .H264_SLICE,
      needed_in_request := true }
    (by decide) (by decide) (by decide) (by decide) (by decide) (by decide) (by decide)

/-- Claim C2: a request whose buffer count is not 1 is rejected with `-ENOENT` when it has
no buffer and with `-EINVAL` when it has two or more, whatever its objects, snapshot and
context are; the state is returned as it was, so no context, handle or control lookup and
no admission check has been made. -/
theorem wrong_buffer_count_rejected {Q : Type}
    (vb2_request_validate : media_request → Q → Int × Q) (s : req_state Q)
    (hcnt : vb2_request_buffer_cnt s.mreq ≠ 1) :
    fops_media_request_validate vb2_request_validate s =
      (if vb2_request_buffer_cnt s.mreq = 0 then -ENOENT else -EINVAL, s) :=
  validate_shape vb2_request_validate s hcnt

/-- Witness for C2: two buffers with a complete H.264 snapshot give `-EINVAL`. -/
theorem wrong_buffer_count_rejected_witness :
    fops_media_request_validate vb2_accept (req_start req_two_buffers) =
      (if vb2_request_buffer_cnt (req_start req_two_buffers).mreq = 0 then -ENOENT
        else -EINVAL, req_start req_two_buffers) :=
  wrong_buffer_count_rejected vb2_accept (req_start req_two_buffers) (by decide)

/-- Claim C3: the validator delegates to the buffer-queue admission check exactly when the
request is admissible (exactly one buffer, that buffer object resolving to a context, a
snapshot for that context, every control required for the current codec in it). Then it
returns the result of the check, made once as the last call on the request as it was
submitted; otherwise it returns a negative error and the check is not called. -/
theorem validate_delegates_iff_admissible {Q : Type}
    (vb2_request_validate : media_request → Q → Int × Q) (s : req_state Q) :
    (request_admissible s.mreq →
      (fops_media_request_validate vb2_request_validate s).1 =
        (vb2_request_validate s.mreq s.vb2).1 ∧
      (fops_media_request_validate vb2_request_validate s).2.vb2 =
        (vb2_request_validate s.mreq s.vb2).2 ∧
      (fops_media_request_validate vb2_request_validate s).2.mreq = s.mreq ∧
      ∃ added, (fops_media_request_validate vb2_request_validate s).2.calls =
          s.calls ++ added ++ [req_call.request_validate] ∧
        req_call.request_validate ∉ added) ∧
    (¬ request_admissible s.mreq →
      (fops_media_request_validate vb2_request_validate s).1 < 0 ∧
      (fops_media_request_validate vb2_request_validate s).2.vb2 = s.vb2 ∧
      ∃ added, (fops_media_request_validate vb2_request_validate s).2.calls =
          s.calls ++ added ∧
        req_call.request_validate ∉ added) := by
  constructor
  · rintro ⟨hcnt, ctx, ctrls, hmem, hhdl, hall⟩
    have hctx : request_ctx_lookup s.mreq.objects = some ctx :=
      ctx_lookup_of_single_buffer s.mreq.objects ctx hcnt hmem
    obtain ⟨hdl, objs', added, _, hnv, _, hacc, _⟩ :=
      validate_found vb2_request_validate s ctx ctrls hcnt hctx hhdl
    rw [hacc hall]
    exact ⟨rfl, rfl, rfl, added ++ [req_call.hdl_put], by simp, by simp [hnv]⟩
  · intro hna
    by_cases hcnt : vb2_request_buffer_cnt s.mreq = 1
    · cases hctx : request_ctx_lookup s.mreq.objects with
      | none =>
        have h : fops_media_request_validate vb2_request_validate s =
            (-ENOENT, { s with calls := s.calls ++ [req_call.get_drv_priv] }) := by
          unfold fops_media_request_validate
          simp only [hcnt, hctx]
        rw [h]
        exact ⟨by simp [ENOENT], rfl, [req_call.get_drv_priv], rfl, by simp⟩
      | some ctx =>
        cases hhdl : request_snapshot s.mreq.objects ctx.ctrl_hdl with
        | none =>
          have h : fops_media_request_validate vb2_request_validate s =
              (-ENOENT, { s with calls := s.calls ++ [req_call.get_drv_priv] ++
                [req_call.hdl_find ctx.ctrl_hdl] }) := by
            unfold fops_media_request_validate
            simp only [hcnt, hctx, hdl_find_none _ _ hhdl]
          rw [h]
          exact ⟨by simp [ENOENT], rfl, [req_call.get_drv_priv, req_call.hdl_find ctx.ctrl_hdl],
            by simp, by simp⟩
        | some ctrls =>
          obtain ⟨hdl, objs', added, _, hnv, _, _, hrej⟩ :=
            validate_found vb2_request_validate s ctx ctrls hcnt hctx hhdl
          rw [hrej (fun hall =>
            hna ⟨hcnt, ctx, ctrls, ctx_lookup_mem _ _ hctx, hhdl, hall⟩)]
          exact ⟨by simp [ENOENT], rfl, added, rfl, hnv⟩
    · rw [validate_shape vb2_request_validate s hcnt]
      refine ⟨?_, rfl, [], by simp, by simp⟩
      show (if vb2_request_buffer_cnt s.mreq = 0 then -ENOENT else -EINVAL) < 0
      split <;> simp [ENOENT, EINVAL]

/-- Witness for C3: the H.264 request with one buffer (standing after the snapshot among
the objects) and all five required controls is admissible, and the validator returns the
result of the admission check, which has been called once, as the last call. -/
theorem validate_delegates_iff_admissible_witness :
    request_admissible (req_start req_h264_full).mreq ∧
    (fops_media_request_validate vb2_accept (req_start req_h264_full)).1 =
      (vb2_accept (req_start req_h264_full).mreq (req_start req_h264_full).vb2).1 ∧
    (fops_media_request_validate vb2_accept (req_start req_h264_full)).2.vb2 =
      (vb2_accept (req_start req_h264_full).mreq (req_start req_h264_full).vb2).2 ∧
    (fops_media_request_validate vb2_accept (req_start req_h264_full)).2.mreq =
      (req_start req_h264_full).mreq ∧
    ∃ added, (fops_media_request_validate vb2_accept (req_start req_h264_full)).2.calls =
        (req_start req_h264_full).calls ++ added ++ [req_call.request_validate] ∧
      req_call.request_validate ∉ added :=
  have hadm : request_admissible (req_start req_h264_full).mreq :=
    ⟨by decide, ctx_h264,
      [.STATELESS_H264_SPS, .STATELESS_H264_PPS, .STATELESS_H264_SCALING_MATRIX,
       .STATELESS_H264_DECODE_PARAMS, .STATELESS_H264_DECODE_MODE],
      by decide, by decide, by decide⟩
  ⟨hadm, (validate_delegates_iff_admissible vb2_accept (req_start req_h264_full)).1 hadm⟩

/-- Claim C10, evaluated on the code: for the H.264 request holding only SPS and PPS the
validator returns `-ENOENT` after `v4l2_ctrl_request_hdl_find` and three control lookups
without calling `v4l2_ctrl_request_hdl_put`: the reference count of the snapshot handle
is 1 before the call and 2 after it. -/
theorem missing_control_keeps_handle_reference :
    (fops_media_request_validate vb2_accept (req_start req_sps_pps)).1 = -ENOENT ∧
    krefs (req_start req_sps_pps).mreq = [some 1, none] ∧
    krefs (fops_media_request_validate vb2_accept (req_start req_sps_pps)).2.mreq =
      [some 2, none] ∧
    (fops_media_request_validate vb2_accept (req_start req_sps_pps)).2.calls =
      [req_call.get_drv_priv, req_call.hdl_find 100,
       req_call.hdl_ctrl_find .STATELESS_H264_SPS,
       req_call.hdl_ctrl_find .STATELESS_H264_PPS,
       req_call.hdl_ctrl_find .STATELESS_H264_SCALING_MATRIX] := by
  decide

/-! ## Properties of the decode worker -/

/-- Claim C4: when the worker reaches the decode backend (the head of the pending-input
queue has a mapping, so the backend is called with it), the error flag of that buffer is
afterwards set if the outcome is `-EIO` and is what it was before for any other outcome. -/
theorem worker_error_flag_iff_eio (ret : Int) (s : vdec_state) (p : Nat)
    (hhead : v4l2_m2m_next_src_buf s.ctx.m2m_ctx = some p)
    (hva : (s.bufs p).vb.plane0.vaddr ≠ 0) :
    (mtk_vdec_worker ret s).decode = s.decode ++ [some p] ∧
    ((mtk_vdec_worker ret s).bufs p).error =
      (if ret = - EIO then true else (s.bufs p).error) := by
  obtain ⟨_, hdec, _, _, _, _, hbufs⟩ := worker_reached ret s p hhead hva
  refine ⟨hdec, ?_⟩
  rw [hbufs]
  simp

/-- Witness for C4: a recoverable error (`-EINVAL`) leaves the flag of buffer `1` as it
was. -/
theorem worker_error_flag_iff_eio_witness :
    (mtk_vdec_worker (-EINVAL) session_one_input).decode =
      session_one_input.decode ++ [some 1] ∧
    ((mtk_vdec_worker (-EINVAL) session_one_input).bufs 1).error =
      (if -EINVAL = - EIO then true else (session_one_input.bufs 1).error) :=
  worker_error_flag_iff_eio (-EINVAL) session_one_input 1 (by decide) (by decide)

/-- Claim C5: when the worker reaches the decode backend and the outcome is at most zero,
the head input buffer is removed from the pending-input queue, that buffer is reported
complete with `ERROR` for a negative outcome and `DONE` for zero, request completion is
signalled with the request of that buffer, and for `-EIO` its error flag is set. -/
theorem worker_consumed_input_completed (ret : Int) (s : vdec_state) (p : Nat)
    (rest : List Nat)
    (hsrc : s.ctx.m2m_ctx.src_rdy = p :: rest)
    (hva : (s.bufs p).vb.plane0.vaddr ≠ 0)
    (hret : ret ≤ 0) :
    (mtk_vdec_worker ret s).ctx.m2m_ctx.src_rdy = rest ∧
    (mtk_vdec_worker ret s).done =
      s.done ++ [(p, if ret < 0 then vb2_buffer_state.VB2_BUF_STATE_ERROR
        else vb2_buffer_state.VB2_BUF_STATE_DONE)] ∧
    (mtk_vdec_worker ret s).request_complete =
      s.request_complete ++ [(s.bufs p).vb.req] ∧
    (ret = - EIO → ((mtk_vdec_worker ret s).bufs p).error = true) := by
  have hhead : v4l2_m2m_next_src_buf s.ctx.m2m_ctx = some p := by
    simp [v4l2_m2m_next_src_buf, hsrc]
  obtain ⟨_, _, _, hctx, hdone, hcomp, hbufs⟩ := worker_reached ret s p hhead hva
  refine ⟨?_, ?_, ?_, ?_⟩
  · rw [hctx]; simp [hret, hsrc]
  · rw [hdone, if_pos hret]
  · rw [hcomp, if_pos hret]
  · intro hcode
    rw [hbufs]
    simp [hcode]

/-- Witness for C5: outcome `-EIO` on the session with buffer `1` pending. -/
theorem worker_consumed_input_completed_witness :
    (mtk_vdec_worker (- EIO) session_one_input).ctx.m2m_ctx.src_rdy = [] ∧
    (mtk_vdec_worker (- EIO) session_one_input).done =
      session_one_input.done ++ [(1, if - EIO < 0 then vb2_buffer_state.VB2_BUF_STATE_ERROR
        else vb2_buffer_state.VB2_BUF_STATE_DONE)] ∧
    (mtk_vdec_worker (- EIO) session_one_input).request_complete =
      session_one_input.request_complete ++ [(session_one_input.bufs 1).vb.req] ∧
    (- EIO = - EIO → ((mtk_vdec_worker (- EIO) session_one_input).bufs 1).error = true) :=
  worker_consumed_input_completed (- EIO) session_one_input 1 [] rfl (by decide) (by decide)

/-- Claim C6 as stated fails: with one mapped pending input buffer, no pending output
buffer and backend outcome 0, the input buffer is no longer in the pending-input queue
after the worker has run. -/
theorem worker_zero_outcome_removes_input :
    session_one_input.ctx.m2m_ctx.src_rdy = [1] ∧
    session_one_input.ctx.m2m_ctx.dst_rdy = [] ∧
    (session_one_input.bufs 1).vb.plane0.vaddr ≠ 0 ∧
    1 ∉ (mtk_vdec_worker 0 session_one_input).ctx.m2m_ctx.src_rdy := by
  decide

/-- Claim C6, amended: with exactly one mapped pending input buffer, no pending output
buffer and backend outcome 0, the worker removes the input buffer from the pending-input
queue and reports it complete with `DONE`; the job-finished signal is sent once, and no
output buffer is touched: the pending-output queue stays empty and the input buffer is
the only buffer reported complete. -/
theorem worker_zero_outcome_single_input (s : vdec_state) (p : Nat)
    (hsrc : s.ctx.m2m_ctx.src_rdy = [p])
    (hdst : s.ctx.m2m_ctx.dst_rdy = [])
    (hva : (s.bufs p).vb.plane0.vaddr ≠ 0) :
    (mtk_vdec_worker 0 s).ctx.m2m_ctx.src_rdy = [] ∧
    (mtk_vdec_worker 0 s).done = s.done ++ [(p, vb2_buffer_state.VB2_BUF_STATE_DONE)] ∧
    (mtk_vdec_worker 0 s).job_finish = s.job_finish + 1 ∧
    (mtk_vdec_worker 0 s).ctx.m2m_ctx.dst_rdy = [] := by
  have hhead : v4l2_m2m_next_src_buf s.ctx.m2m_ctx = some p := by
    simp [v4l2_m2m_next_src_buf, hsrc]
  obtain ⟨hjob, _, _, hctx, hdone, _, _⟩ := worker_reached 0 s p hhead hva
  refine ⟨?_, ?_, hjob, ?_⟩
  · rw [hctx]; simp [hsrc]
  · rw [hdone]; simp
  · rw [hctx]; exact hdst

/-- Witness for the amended C6 on the session with buffer `1` pending. -/
theorem worker_zero_outcome_single_input_witness :
    (mtk_vdec_worker 0 session_one_input).ctx.m2m_ctx.src_rdy = [] ∧
    (mtk_vdec_worker 0 session_one_input).done =
      session_one_input.done ++ [(1, vb2_buffer_state.VB2_BUF_STATE_DONE)] ∧
    (mtk_vdec_worker 0 session_one_input).job_finish = session_one_input.job_finish + 1 ∧
    (mtk_vdec_worker 0 session_one_input).ctx.m2m_ctx.dst_rdy = [] :=
  worker_zero_outcome_single_input session_one_input 1 rfl rfl (by decide)

/-- Claim C7: every invocation of the worker signals job-finished exactly once, whatever
the pending-input queue, the mapping of its head and the backend outcome are. -/
theorem worker_signals_job_finish_once (ret : Int) (s : vdec_state) :
    (mtk_vdec_worker ret s).job_finish = s.job_finish + 1 := by
  cases hsrc : s.ctx.m2m_ctx.src_rdy with
  | nil => rw [worker_no_src ret s hsrc]
  | cons p rest =>
    have hhead : v4l2_m2m_next_src_buf s.ctx.m2m_ctx = some p := by
      simp [v4l2_m2m_next_src_buf, hsrc]
    by_cases hva : (s.bufs p).vb.plane0.vaddr = 0
    · rw [worker_null_va ret s p hhead hva]
    · exact (worker_reached ret s p hhead hva).1

/-- Claim C8: over any sequence of buffer enqueues and worker invocations with arbitrary
backend outcomes, the input buffers reported complete during the run, followed by those
still pending, are the input buffers pending before the run followed by those enqueued
during it, in order; so on a session that starts with nothing pending and nothing
completed, the completed input buffers are an initial segment of the enqueued ones. Each
worker invocation decodes at most the head of the pending-input queue, and when it
completes a buffer that buffer is the head, which is the one removed. -/
theorem input_completion_fifo (ops : List vdec_op) (s : vdec_state) :
    (∃ completed, (run_ops ops s).done = s.done ++ completed ∧
      completed.map Prod.fst ++ (run_ops ops s).ctx.m2m_ctx.src_rdy =
        s.ctx.m2m_ctx.src_rdy ++ enqueued_inputs s.bufs ops) ∧
    (s.ctx.m2m_ctx.src_rdy = [] → s.done = [] →
      (run_ops ops s).done.map Prod.fst ++ (run_ops ops s).ctx.m2m_ctx.src_rdy =
        enqueued_inputs s.bufs ops) ∧
    (∀ (ret : Int) (t : vdec_state),
      (((mtk_vdec_worker ret t).done = t.done ∧
          (mtk_vdec_worker ret t).ctx.m2m_ctx.src_rdy = t.ctx.m2m_ctx.src_rdy) ∨
        ∃ p rest st, t.ctx.m2m_ctx.src_rdy = p :: rest ∧
          (mtk_vdec_worker ret t).ctx.m2m_ctx.src_rdy = rest ∧
          (mtk_vdec_worker ret t).done = t.done ++ [(p, st)] ∧
          (mtk_vdec_worker ret t).decode = t.decode ++ [some p]) ∧
      ((mtk_vdec_worker ret t).decode = t.decode ∨
        ∃ p, t.ctx.m2m_ctx.src_rdy.head? = some p ∧
          (mtk_vdec_worker ret t).decode = t.decode ++ [some p])) := by
  refine ⟨run_ops_fifo ops s, ?_, fun ret t => (worker_step ret t).2⟩
  intro hsrc hdone
  obtain ⟨completed, h1, h2⟩ := run_ops_fifo ops s
  rw [h1, hdone, List.nil_append, h2, hsrc, List.nil_append]

/-! ## Properties of the buffer-queue event handler -/

/-- Claim C9: the handler always appends the buffer to the ready queue of its type, and
the lifecycle state afterwards is `MTK_STATE_HEADER` if the buffer is an `OUTPUT_MPLANE`
buffer and the state was `MTK_STATE_INIT`, and the state before otherwise. Hence the
first input enqueue moves `INIT` to `HEADER`, any enqueue after it keeps `HEADER`, and
enqueuing a capture buffer leaves the state as it was. -/
theorem buf_queue_enqueues_and_state (vb : Nat) (s : vdec_state) :
    (vb2ops_vdec_stateless_buf_queue vb s).ctx.m2m_ctx.src_rdy =
      s.ctx.m2m_ctx.src_rdy ++ (if V4L2_TYPE_IS_OUTPUT (s.bufs vb).vb.type then [vb] else []) ∧
    (vb2ops_vdec_stateless_buf_queue vb s).ctx.m2m_ctx.dst_rdy =
      s.ctx.m2m_ctx.dst_rdy ++ (if V4L2_TYPE_IS_OUTPUT (s.bufs vb).vb.type then [] else [vb]) ∧
    (vb2ops_vdec_stateless_buf_queue vb s).ctx.state =
      (if (s.bufs vb).vb.type = v4l2_buf_type.VIDEO_OUTPUT_MPLANE ∧
          s.ctx.state = mtk_instance_state.MTK_STATE_INIT
        then mtk_instance_state.MTK_STATE_HEADER else s.ctx.state) ∧
    ((s.bufs vb).vb.type = v4l2_buf_type.VIDEO_OUTPUT_MPLANE →
      s.ctx.state = mtk_instance_state.MTK_STATE_INIT →
      (vb2ops_vdec_stateless_buf_queue vb s).ctx.state = mtk_instance_state.MTK_STATE_HEADER ∧
      ∀ vb2, (vb2ops_vdec_stateless_buf_queue vb2
        (vb2ops_vdec_stateless_buf_queue vb s)).ctx.state =
          mtk_instance_state.MTK_STATE_HEADER) ∧
    (V4L2_TYPE_IS_OUTPUT (s.bufs vb).vb.type = false →
      (vb2ops_vdec_stateless_buf_queue vb s).ctx.state = s.ctx.state) := by
  obtain ⟨_, _, hsrc, hdst, hstate⟩ := buf_queue_fields vb s
  refine ⟨hsrc, hdst, hstate, ?_, ?_⟩
  · intro ht hs
    have h1 : (vb2ops_vdec_stateless_buf_queue vb s).ctx.state =
        mtk_instance_state.MTK_STATE_HEADER := by rw [hstate]; simp [ht, hs]
    refine ⟨h1, fun vb2 => ?_⟩
    rw [(buf_queue_fields vb2 (vb2ops_vdec_stateless_buf_queue vb s)).2.2.2.2, h1]
    simp
  · intro ht
    rw [hstate]
    cases hty : (s.bufs vb).vb.type <;> simp_all [V4L2_TYPE_IS_OUTPUT]

/-! ## Properties of the frame-buffer helpers and of flush -/

/-- Claim C12: `vdec_get_cap_buffer` returns none exactly when the pending-output queue is
empty, and then changes nothing. Otherwise it returns the descriptor of the head output
buffer: the luma region has the mapping and DMA address of plane 0 and the size
`sizeimage[0]`; the chroma region has those of plane 1 and the size `sizeimage[1]` when
the capture format has 2 planes and is left as it was otherwise. The context, and with it
the pending-output queue, is unchanged in both cases. -/
theorem get_cap_buffer_descriptor (s : vdec_state) :
    ((vdec_get_cap_buffer s).1 = none ↔ s.ctx.m2m_ctx.dst_rdy = []) ∧
    (vdec_get_cap_buffer s).2.ctx = s.ctx ∧
    (s.ctx.m2m_ctx.dst_rdy = [] → (vdec_get_cap_buffer s).2.bufs = s.bufs) ∧
    (∀ p rest, s.ctx.m2m_ctx.dst_rdy = p :: rest →
      (vdec_get_cap_buffer s).1 = some p ∧
      (((vdec_get_cap_buffer s).2.bufs p).frame_buffer.base_y =
        { va := (s.bufs p).vb.plane0.vaddr, dma_addr := (s.bufs p).vb.plane0.dma_addr,
          size := s.ctx.q_data_dst.sizeimage0 }) ∧
      (((vdec_get_cap_buffer s).2.bufs p).frame_buffer.base_c =
        if s.ctx.q_data_dst.num_planes = 2 then
          { va := (s.bufs p).vb.plane1.vaddr, dma_addr := (s.bufs p).vb.plane1.dma_addr,
            size := s.ctx.q_data_dst.sizeimage1 }
        else (s.bufs p).frame_buffer.base_c)) := by
  unfold vdec_get_cap_buffer v4l2_m2m_next_dst_buf
  cases hdst : s.ctx.m2m_ctx.dst_rdy with
  | nil => simp
  | cons q rest =>
    by_cases hn : s.ctx.q_data_dst.num_planes = 2 <;> simp [hn]

/-- Claim C13 as stated fails: with the buffers `4` and `5` pending and the descriptor of
buffer `5` passed, buffer `4` is removed from the pending-output queue, but it is buffer
`5` that gets its produced size set and is reported complete; buffer `4` gets neither. -/
theorem cap_to_disp_completes_descriptor_owner :
    session_two_outputs.ctx.m2m_ctx.dst_rdy = [4, 5] ∧
    (mtk_vdec_stateless_cap_to_disp (some 5) 0 session_two_outputs).ctx.m2m_ctx.dst_rdy =
      [5] ∧
    (mtk_vdec_stateless_cap_to_disp (some 5) 0 session_two_outputs).done =
      [(5, vb2_buffer_state.VB2_BUF_STATE_DONE)] ∧
    ((mtk_vdec_stateless_cap_to_disp (some 5) 0 session_two_outputs).bufs 4).vb.plane0.payload
      = 0 ∧
    ((mtk_vdec_stateless_cap_to_disp (some 5) 0 session_two_outputs).bufs 5).vb.plane0.payload
      = 2088960 ∧
    session_two_outputs.ctx.q_data_dst.sizeimage0 = 2088960 := by
  decide

/-- Claim C13, amended: when the descriptor passed is that of the head buffer of the
pending-output queue, that buffer is removed from the queue, its produced size is set to
`sizeimage[0]` for plane 0 and to `sizeimage[1]` for plane 1 exactly when the capture
format has 2 planes, and it is reported complete with `ERROR` for a non-zero error
argument and `DONE` for zero. -/
theorem cap_to_disp_head_descriptor (error : Int) (s : vdec_state) (p : Nat)
    (rest : List Nat)
    (hdst : s.ctx.m2m_ctx.dst_rdy = p :: rest) :
    (mtk_vdec_stateless_cap_to_disp (some p) error s).ctx.m2m_ctx.dst_rdy = rest ∧
    ((mtk_vdec_stateless_cap_to_disp (some p) error s).bufs p).vb.plane0.payload =
      s.ctx.q_data_dst.sizeimage0 ∧
    ((mtk_vdec_stateless_cap_to_disp (some p) error s).bufs p).vb.plane1.payload =
      (if s.ctx.q_data_dst.num_planes = 2 then s.ctx.q_data_dst.sizeimage1
        else (s.bufs p).vb.plane1.payload) ∧
    (mtk_vdec_stateless_cap_to_disp (some p) error s).done =
      s.done ++ [(p, if error ≠ 0 then vb2_buffer_state.VB2_BUF_STATE_ERROR
        else vb2_buffer_state.VB2_BUF_STATE_DONE)] := by
  unfold mtk_vdec_stateless_cap_to_disp
  by_cases hn : s.ctx.q_data_dst.num_planes = 2 <;> by_cases he : error = 0 <;>
    simp [hn, he, hdst, v4l2_m2m_dst_buf_remove, vb2_set_plane_payload, v4l2_m2m_buf_done]

/-- Witness for the amended C13: the descriptor of buffer `4`, the head of the queue,
with a non-zero error argument. -/
theorem cap_to_disp_head_descriptor_witness :
    (mtk_vdec_stateless_cap_to_disp (some 4) (- EIO) session_two_outputs).ctx.m2m_ctx.dst_rdy
      = [5] ∧
    ((mtk_vdec_stateless_cap_to_disp (some 4) (- EIO) session_two_outputs).bufs
      4).vb.plane0.payload = session_two_outputs.ctx.q_data_dst.sizeimage0 ∧
    ((mtk_vdec_stateless_cap_to_disp (some 4) (- EIO) session_two_outputs).bufs
      4).vb.plane1.payload =
      (if session_two_outputs.ctx.q_data_dst.num_planes = 2 then
        session_two_outputs.ctx.q_data_dst.sizeimage1
        else (session_two_outputs.bufs 4).vb.plane1.payload) ∧
    (mtk_vdec_stateless_cap_to_disp (some 4) (- EIO) session_two_outputs).done =
      session_two_outputs.done ++ [(4, if - EIO ≠ 0 then vb2_buffer_state.VB2_BUF_STATE_ERROR
        else vb2_buffer_state.VB2_BUF_STATE_DONE)] :=
  cap_to_disp_head_descriptor (- EIO) session_two_outputs 4 [5] rfl

/-- Claim C14 as stated fails: with no pending output buffer and a non-null descriptor
(that of buffer `4`) the function still sets the produced size of plane 0 and reports
the buffer complete. -/
theorem cap_to_disp_empty_queue_still_completes :
    session_fresh.ctx.m2m_ctx.dst_rdy = [] ∧
    session_fresh.done = [] ∧
    (session_fresh.bufs 4).vb.plane0.payload = 0 ∧
    (mtk_vdec_stateless_cap_to_disp (some 4) 0 session_fresh).done =
      [(4, vb2_buffer_state.VB2_BUF_STATE_DONE)] ∧
    ((mtk_vdec_stateless_cap_to_disp (some 4) 0 session_fresh).bufs 4).vb.plane0.payload =
      2088960 := by
  decide

/-- Claim C14, amended: output completion with a null descriptor changes no state, and a
null descriptor is what `vdec_get_cap_buffer` gives when no output buffer is pending, so
completing the result of `vdec_get_cap_buffer` on an empty pending-output queue leaves
the queue, the plane sizes and the completion record as they were. -/
theorem cap_to_disp_null_descriptor_no_change (error : Int) (s : vdec_state) :
    mtk_vdec_stateless_cap_to_disp none error s = s ∧
    (s.ctx.m2m_ctx.dst_rdy = [] →
      mtk_vdec_stateless_cap_to_disp (vdec_get_cap_buffer s).1 error
        (vdec_get_cap_buffer s).2 = s) := by
  refine ⟨rfl, fun hdst => ?_⟩
  unfold vdec_get_cap_buffer v4l2_m2m_next_dst_buf
  simp [hdst, mtk_vdec_stateless_cap_to_disp]

/-- Claim C15: `mtk_vdec_flush_decoder` calls the decode backend once with no input
buffer (and, as every call in the file, no output descriptor), returns the outcome of the
backend, and leaves the context with its pending-input queue, every buffer record with
its error flag, and the completion record unchanged. -/
theorem flush_decoder_outcome_and_queue (ret : Int) (s : vdec_state) :
    (mtk_vdec_flush_decoder ret s).1 = ret ∧
    (mtk_vdec_flush_decoder ret s).2.decode = s.decode ++ [none] ∧
    (mtk_vdec_flush_decoder ret s).2.ctx = s.ctx ∧
    (mtk_vdec_flush_decoder ret s).2.bufs = s.bufs ∧
    (mtk_vdec_flush_decoder ret s).2.done = s.done :=
  ⟨rfl, rfl, rfl, rfl, rfl⟩

/-- Claim C17: when the head pending input buffer has no mapping, the worker does not call
the decode backend, applies and completes no request controls, reports no buffer
complete, and leaves the context (so the pending-input queue, whose head is still that
buffer) and every error flag unchanged; the job-finished signal is sent once. -/
theorem worker_unmapped_input_only_finishes (ret : Int) (s : vdec_state) (p : Nat)
    (rest : List Nat)
    (hsrc : s.ctx.m2m_ctx.src_rdy = p :: rest)
    (hva : (s.bufs p).vb.plane0.vaddr = 0) :
    (mtk_vdec_worker ret s).decode = s.decode ∧
    (mtk_vdec_worker ret s).request_setup = s.request_setup ∧
    (mtk_vdec_worker ret s).request_complete = s.request_complete ∧
    (mtk_vdec_worker ret s).done = s.done ∧
    (mtk_vdec_worker ret s).ctx = s.ctx ∧
    v4l2_m2m_next_src_buf (mtk_vdec_worker ret s).ctx.m2m_ctx = some p ∧
    (∀ q, ((mtk_vdec_worker ret s).bufs q).error = (s.bufs q).error) ∧
    (mtk_vdec_worker ret s).job_finish = s.job_finish + 1 := by
  have hhead : v4l2_m2m_next_src_buf s.ctx.m2m_ctx = some p := by
    simp [v4l2_m2m_next_src_buf, hsrc]
  rw [worker_null_va ret s p hhead hva]
  refine ⟨rfl, rfl, rfl, rfl, rfl, hhead, fun q => ?_, rfl⟩
  by_cases hq : q = p
  · subst hq; simp
  · simp [Function.update, hq]

/-- Witness for C17: the session whose pending input buffer `1` has no mapping. -/
theorem worker_unmapped_input_only_finishes_witness :
    (mtk_vdec_worker 0 session_unmapped_input).decode = session_unmapped_input.decode ∧
    (mtk_vdec_worker 0 session_unmapped_input).request_setup =
      session_unmapped_input.request_setup ∧
    (mtk_vdec_worker 0 session_unmapped_input).request_complete =
      session_unmapped_input.request_complete ∧
    (mtk_vdec_worker 0 session_unmapped_input).done = session_unmapped_input.done ∧
    (mtk_vdec_worker 0 session_unmapped_input).ctx = session_unmapped_input.ctx ∧
    v4l2_m2m_next_src_buf (mtk_vdec_worker 0 session_unmapped_input).ctx.m2m_ctx = some 1 ∧
    (∀ q, ((mtk_vdec_worker 0 session_unmapped_input).bufs q).error =
      (session_unmapped_input.bufs q).error) ∧
    (mtk_vdec_worker 0 session_unmapped_input).job_finish =
      session_unmapped_input.job_finish + 1 :=
  worker_unmapped_input_only_finishes 0 session_unmapped_input 1 [] rfl (by decide)

/-- Claim C18: when the worker reaches the decode backend and the outcome is positive, the
context with its pending-input queue is unchanged, no buffer is reported complete, request
completion is not signalled and every error flag is unchanged; the next invocation, with
any outcome, presents the same input buffer to the backend again. -/
theorem worker_positive_outcome_keeps_input (ret : Int) (s : vdec_state) (p : Nat)
    (rest : List Nat)
    (hsrc : s.ctx.m2m_ctx.src_rdy = p :: rest)
    (hva : (s.bufs p).vb.plane0.vaddr ≠ 0)
    (hret : 0 < ret) :
    (mtk_vdec_worker ret s).ctx = s.ctx ∧
    (mtk_vdec_worker ret s).done = s.done ∧
    (mtk_vdec_worker ret s).request_complete = s.request_complete ∧
    (∀ q, ((mtk_vdec_worker ret s).bufs q).error = (s.bufs q).error) ∧
    (mtk_vdec_worker ret s).decode = s.decode ++ [some p] ∧
    (∀ ret2, (mtk_vdec_worker ret2 (mtk_vdec_worker ret s)).decode =
      s.decode ++ [some p, some p]) := by
  have hhead : v4l2_m2m_next_src_buf s.ctx.m2m_ctx = some p := by
    simp [v4l2_m2m_next_src_buf, hsrc]
  have hle : ¬ ret ≤ 0 := by omega
  have hcode : ¬ ret = - EIO := fun h => absurd (h ▸ hret) (by decide)
  obtain ⟨_, hdec, _, hctx, hdone, hcomp, hbufs⟩ := worker_reached ret s p hhead hva
  have hctx' : (mtk_vdec_worker ret s).ctx = s.ctx := by rw [hctx]; simp [hle]
  refine ⟨hctx', by rw [hdone, if_neg hle], by rw [hcomp, if_neg hle], fun q => ?_, hdec,
    fun ret2 => ?_⟩
  · rw [hbufs]
    by_cases hq : q = p
    · subst hq; simp [hcode]
    · simp [Function.update, hq]
  · have hhead2 : v4l2_m2m_next_src_buf (mtk_vdec_worker ret s).ctx.m2m_ctx = some p := by
      rw [hctx']; exact hhead
    have hva2 : ((mtk_vdec_worker ret s).bufs p).vb.plane0.vaddr ≠ 0 := by
      rw [hbufs]; simpa using hva
    rw [(worker_reached ret2 (mtk_vdec_worker ret s) p hhead2 hva2).2.1, hdec]
    simp

/-- Witness for C18: outcome `1` on the session with buffer `1` pending. -/
theorem worker_positive_outcome_keeps_input_witness :
    (mtk_vdec_worker 1 session_one_input).ctx = session_one_input.ctx ∧
    (mtk_vdec_worker 1 session_one_input).done = session_one_input.done ∧
    (mtk_vdec_worker 1 session_one_input).request_complete =
      session_one_input.request_complete ∧
    (∀ q, ((mtk_vdec_worker 1 session_one_input).bufs q).error =
      (session_one_input.bufs q).error) ∧
    (mtk_vdec_worker 1 session_one_input).decode = session_one_input.decode ++ [some 1] ∧
    (∀ ret2, (mtk_vdec_worker ret2 (mtk_vdec_worker 1 session_one_input)).decode =
      session_one_input.decode ++ [some 1, some 1]) :=
  worker_positive_outcome_keeps_input 1 session_one_input 1 [] rfl (by decide) (by decide)

/-! ## Properties of the control requirement table -/

/-- Claim C16: the controls the validator requires for a codec are the identifiers of the
table entries of that codec with `needed_in_request` set: five controls for
`H264_SLICE`, one each for `VP8_FRAME` and `VP9_FRAME`, none for any other codec value,
and none of the three profile controls for any codec. The loop of the validator runs to
its end exactly when the snapshot holds every one of them. -/
theorem required_controls_per_codec :
    is_required .H264_SLICE =
      [.STATELESS_H264_SPS, .STATELESS_H264_PPS, .STATELESS_H264_SCALING_MATRIX,
       .STATELESS_H264_DECODE_PARAMS, .STATELESS_H264_DECODE_MODE] ∧
    is_required .VP8_FRAME = [.STATELESS_VP8_FRAME] ∧
    is_required .VP9_FRAME = [.STATELESS_VP9_FRAME] ∧
    (∀ codec, codec ≠ .H264_SLICE → codec ≠ .VP8_FRAME → codec ≠ .VP9_FRAME →
      is_required codec = []) ∧
    (∀ codec, v4l2_cid.MPEG_VIDEO_H264_PROFILE ∉ is_required codec ∧
      v4l2_cid.MPEG_VIDEO_VP8_PROFILE ∉ is_required codec ∧
      v4l2_cid.MPEG_VIDEO_VP9_PROFILE ∉ is_required codec) ∧
    (∀ codec id, id ∈ is_required codec ↔
      ∃ c ∈ mtk_stateless_controls, c.codec_type = codec ∧ c.needed_in_request = true ∧
        c.cfg_id = id) ∧
    (∀ objs hdl codec calls,
      (required_ctrls_loop objs hdl codec mtk_stateless_controls calls).1 = true ↔
        ∀ id ∈ is_required codec, id ∈ hdl_ctrls objs hdl) := by
  refine ⟨by decide, by decide, by decide, ?_, ?_, ?_, ?_⟩
  · intro codec h1 h2 h3
    cases codec <;> simp_all [is_required, mtk_stateless_controls]
  · intro codec
    cases codec <;> simp [is_required, mtk_stateless_controls]
  · intro codec id
    simp only [is_required, List.mem_map, List.mem_filter, Bool.and_eq_true,
      decide_eq_true_eq]
    constructor
    · rintro ⟨c, ⟨hc, h1, h2⟩, rfl⟩
      exact ⟨c, hc, h1, h2, rfl⟩
    · rintro ⟨c, hc, h1, h2, rfl⟩
      exact ⟨c, ⟨hc, h1, h2⟩, rfl⟩
  · intro objs hdl codec calls
    rw [required_ctrls_loop_fst, is_required_iff]

/-! ## Properties of the format tables -/

/-- Claim C11, evaluated on the code: on the `MTK_VDEC_PURE_SIN_CORE` architecture the
second context initialisation changes what the first one left: the counters go from 2
and 1 to 4 and 2 and two more table entries are written. -/
theorem pure_sin_core_second_init_repopulates :
    (run_inits .MTK_VDEC_PURE_SIN_CORE cap_all 1 tables_zero).num_formats = 2 ∧
    (run_inits .MTK_VDEC_PURE_SIN_CORE cap_all 1 tables_zero).num_framesizes = 1 ∧
    (run_inits .MTK_VDEC_PURE_SIN_CORE cap_all 2 tables_zero).num_formats = 4 ∧
    (run_inits .MTK_VDEC_PURE_SIN_CORE cap_all 2 tables_zero).num_framesizes = 2 ∧
    (run_inits .MTK_VDEC_PURE_SIN_CORE cap_all 1 tables_zero).mtk_video_formats =
      [compressed_fmt .H264_SLICE, capture_fmt .MM21, fmt_zero, fmt_zero, fmt_zero] ∧
    (run_inits .MTK_VDEC_PURE_SIN_CORE cap_all 2 tables_zero).mtk_video_formats =
      [compressed_fmt .H264_SLICE, capture_fmt .MM21, compressed_fmt .H264_SLICE,
       capture_fmt .MM21, fmt_zero] := by
  decide

/-- Claim C19, evaluated on the code: on the `MTK_VDEC_PURE_SIN_CORE` architecture the
third context initialisation writes `mtk_video_formats[5]`, one past the 5 entries of the
table, and leaves `num_formats` at 6. -/
theorem pure_sin_core_third_init_out_of_bounds :
    tables_zero.mtk_video_formats.length = 5 ∧
    tables_zero.mtk_vdec_framesizes.length = 3 ∧
    (run_inits .MTK_VDEC_PURE_SIN_CORE cap_all 3 tables_zero).fmt_writes =
      [0, 1, 2, 3, 4, 5] ∧
    (run_inits .MTK_VDEC_PURE_SIN_CORE cap_all 3 tables_zero).num_formats = 6 := by
  decide

/-- Claim C20 as stated fails: with no format enabled `mtk_vcodec_get_supported_formats`
leaves both defaults as they were, so on the zero-initialised variables the two defaults
have the same type and the default capture format does not have type `MTK_FMT_FRAME`. -/
theorem default_formats_kept_without_formats :
    tables_zero.num_formats = 0 ∧ tables_zero.num_framesizes = 0 ∧
    (mtk_vcodec_get_supported_formats cap_none tables_zero).default_cap_format =
      tables_zero.default_cap_format ∧
    (mtk_vcodec_get_supported_formats cap_none tables_zero).default_out_format =
      tables_zero.default_out_format ∧
    (mtk_vcodec_get_supported_formats cap_none tables_zero).default_cap_format.type =
      (mtk_vcodec_get_supported_formats cap_none tables_zero).default_out_format.type ∧
    (mtk_vcodec_get_supported_formats cap_none tables_zero).default_cap_format.type ≠
      mtk_fmt_type.MTK_FMT_FRAME := by
  decide

/-- Claim C20, amended: after `mtk_vcodec_get_supported_formats` has run on empty tables,
the format table holds the enabled capture formats (`MM21`, then `MT21C`; `MTK_FMT_FRAME`,
2 planes) followed by the enabled compressed formats (`H264_SLICE`, `VP8_FRAME`,
`VP9_FRAME`; `MTK_FMT_DEC`, 1 plane), and the framesize table one entry of the same
fourcc for each compressed format. The default capture format is the last capture format
added, of type `MTK_FMT_FRAME`, if a capture format is enabled and is otherwise what it
was; the default output format is the last compressed format added, of type
`MTK_FMT_DEC`, if a compressed format is enabled and is otherwise what it was. -/
theorem supported_formats_layout (cap : dec_capability) (g : fmt_tables)
    (hnf : g.num_formats = 0) (hns : g.num_framesizes = 0)
    (hlf : g.mtk_video_formats.length = 5) (hls : g.mtk_vdec_framesizes.length = 3) :
    (mtk_vcodec_get_supported_formats cap g).num_formats =
      (enabled_capture cap).length + (enabled_compressed cap).length ∧
    (mtk_vcodec_get_supported_formats cap g).num_framesizes =
      (enabled_compressed cap).length ∧
    (mtk_vcodec_get_supported_formats cap g).mtk_video_formats.take
        (mtk_vcodec_get_supported_formats cap g).num_formats =
      (enabled_capture cap).map capture_fmt ++ (enabled_compressed cap).map compressed_fmt ∧
    (mtk_vcodec_get_supported_formats cap g).mtk_vdec_framesizes.take
        (mtk_vcodec_get_supported_formats cap g).num_framesizes =
      (enabled_compressed cap).map (fun f => { fourcc := f, stepwise := stepwise_fhd }) ∧
    (mtk_vcodec_get_supported_formats cap g).default_cap_format =
      (((enabled_capture cap).getLast?).map capture_fmt).getD g.default_cap_format ∧
    (mtk_vcodec_get_supported_formats cap g).default_out_format =
      (((enabled_compressed cap).getLast?).map compressed_fmt).getD g.default_out_format ∧
    (enabled_capture cap ≠ [] →
      (mtk_vcodec_get_supported_formats cap g).default_cap_format.type =
        mtk_fmt_type.MTK_FMT_FRAME) ∧
    (enabled_compressed cap ≠ [] →
      (mtk_vcodec_get_supported_formats cap g).default_out_format.type =
        mtk_fmt_type.MTK_FMT_DEC) := by
  obtain ⟨fs, ss, dout, dcap, nf, ns, fw, sw⟩ := g
  simp only at hnf hns hlf hls
  subst hnf hns
  rcases fs with _ | ⟨a0, _ | ⟨a1, _ | ⟨a2, _ | ⟨a3, _ | ⟨a4, _ | ⟨a5, fs⟩⟩⟩⟩⟩⟩ <;>
    simp at hlf
  rcases ss with _ | ⟨b0, _ | ⟨b1, _ | ⟨b2, _ | ⟨b3, ss⟩⟩⟩⟩ <;> simp at hls
  rcases cap with ⟨_ | _, _ | _, _ | _, _ | _, _ | _⟩ <;>
    exact ⟨rfl, rfl, rfl, rfl, rfl, rfl,
      fun h => by first | exact absurd rfl h | rfl,
      fun h => by first | exact absurd rfl h | rfl⟩

/-- Witness for the amended C20: with every format enabled the five formats fill the
table, `MT21C` is the default capture format and `VP9_FRAME` the default output format. -/
theorem supported_formats_layout_witness :
    (mtk_vcodec_get_supported_formats cap_all tables_zero).num_formats = 5 ∧
    (mtk_vcodec_get_supported_formats cap_all tables_zero).num_framesizes = 3 ∧
    (mtk_vcodec_get_supported_formats cap_all tables_zero).default_cap_format =
      capture_fmt .MT21C ∧
    (mtk_vcodec_get_supported_formats cap_all tables_zero).default_out_format =
      compressed_fmt .VP9_FRAME :=
  have h := supported_formats_layout cap_all tables_zero rfl rfl rfl rfl
  ⟨h.1, h.2.1, h.2.2.2.2.1, h.2.2.2.2.2.1⟩

/-- Where the population guard does hold: on an architecture other than
`MTK_VDEC_PURE_SIN_CORE`, once both counters are non-zero a context initialisation leaves
the static variables as they are. -/
theorem guarded_init_keeps_tables (hw_arch : mtk_vdec_hw_arch) (cap : dec_capability)
    (g : fmt_tables) (hw : hw_arch ≠ .MTK_VDEC_PURE_SIN_CORE)
    (hnf : g.num_formats ≠ 0) (hns : g.num_framesizes ≠ 0) (n : Nat) :
    run_inits hw_arch cap n g = g := by
  induction n with
  | zero => rfl
  | succ n ih =>
    have h1 : mtk_init_vdec_params hw_arch cap g = g := by
      unfold mtk_init_vdec_params mtk_vcodec_get_supported_formats
      simp [hw, hnf, hns]
    simp only [run_inits, h1, ih]

end MtkVdec
